import Mathlib

/-!
# IFC viewer (`src/app.js`): a shallow embedding and its verified properties

`src/app.js` is a single browser module: it builds a three.js scene, loads an IFC model through
`web-ifc-three`, and highlights / inspects the element under the pointer.  The module-level
variables of the script become the fields of `State`; every function and every event listener of
the script becomes a state transformer of the same name.  The script is event driven and each
listener runs to completion, so an execution is a list of `Event`s folded over the start-up state.

Numbers are JavaScript doubles in the script; here they are rationals (exact arithmetic).

The script writes the output region through `innerHTML`, so what it assigns is parsed as HTML by
the browser; `State.output` is the text the region shows after that parse.

The collaborating libraries (three.js scene graph and ray caster, the `web-ifc-three` subset
manager and property service) are not part of the repository.  Their pure queries are the fields
of `Lib`; their stateful primitives are modelled from the contracts listed in §6 of the
specification and are marked as such.
-/

namespace IfcViewer

/-! ## Data model -/

/-- The two highlight materials created at `app.js:74-86`. They are distinct objects. -/
inductive Material where
  | preselectMat
  | selectMat
deriving DecidableEq

/-- The two records `preselectModel` and `selectModel` of `app.js:94-95`, passed by reference to
the handlers. -/
inductive ModelRef where
  | preselectModel
  | selectModel
deriving DecidableEq

/-- The record shape `{ id: -1 }` of `app.js:94-95`. -/
structure HighlightRecord where
  id : Int
deriving DecidableEq

/-- A loaded model object as the script uses it: an object identity, the `modelID` tag read at
`app.js:142,149`, and the `geometry` read at `app.js:140,153`. -/
structure IfcModel where
  uuid : Nat
  modelID : Int
  geometry : Nat
deriving DecidableEq

/-- The objects the script attaches to the scene (`app.js:41-66` and `app.js:111`). -/
inductive SceneObject where
  | ambientLight
  | directionalLight
  | directionalLightTarget
  | grid
  | axes
  | ifcModel (m : IfcModel)
deriving DecidableEq

/-- One entry of the array returned by `raycaster.intersectObjects` (`app.js:135`): the struck
object, the struck face and the distance along the ray. -/
structure Intersection where
  distance : ℚ
  object : IfcModel
  faceIndex : Nat
deriving DecidableEq

/-- A highlight overlay held by the subset manager: the owning model id, the material and the
element ids it covers. -/
structure Subset where
  modelID : Int
  material : Material
  ids : List Int
deriving DecidableEq

/-- The argument object of `ifc.createSubset` (`app.js:157-163`); `scene` is the one scene of the
script. -/
structure SubsetConfig where
  modelID : Int
  ids : List Int
  material : Material
  removePrevious : Bool

/-- The value of `threeCanvas.getBoundingClientRect()` (`app.js:121`). -/
structure DOMRect where
  left : ℚ
  right : ℚ
  top : ℚ
  bottom : ℚ

/-- The pointer event fields read by `cast` (`app.js:123,127`). -/
structure MouseEvent where
  clientX : ℚ
  clientY : ℚ

/-- The `size` record of `app.js:25-28`. -/
structure Size where
  width : ℚ
  height : ℚ
deriving DecidableEq

/-- The `mouse` vector of `app.js:117`. -/
structure Vector2 where
  x : ℚ
  y : ℚ
deriving DecidableEq

/-- A point of the scene. -/
structure Vector3 where
  x : ℚ
  y : ℚ
  z : ℚ
deriving DecidableEq

/-- The perspective camera of `app.js:32-35`. `projectionAspect` is the aspect ratio baked into
the projection matrix by the last `updateProjectionMatrix()`; `target` is the point the orbit
controls keep the camera looking at. -/
structure Camera where
  fov : ℚ
  aspect : ℚ
  projectionAspect : ℚ
  position : Vector3
  target : Vector3
deriving DecidableEq

/-- The renderer settings written at `app.js:56-57,220`. -/
structure Renderer where
  width : ℚ
  height : ℚ
  pixelRatio : ℚ
deriving DecidableEq

/-- A property document returned by `ifc.getItemProperties`. -/
abbrev Props := List (String × String)

/-- The pure queries of the collaborating libraries.
* `intersectObject mouse camera o`: the (distance, face index) pairs at which the ray through the
  normalized point `mouse` of `camera` strikes object `o`;
* `getExpressId geometry faceIndex`: the element id of a face (`app.js:141,154`);
* `getItemProperties modelID id`: the settled value of the property fetch (`app.js:143`), `none`
  when the promise is rejected;
* `stringify props`: `JSON.stringify(props, null, 2)` (`app.js:144`);
* `renderHTML markup`: the text an element shows once `markup` has been assigned to its
  `innerHTML`, that is, once the browser has parsed `markup` as HTML (`app.js:144`). -/
structure Lib where
  intersectObject : Vector2 → Camera → IfcModel → List (ℚ × Nat)
  getExpressId : Nat → Nat → Int
  getItemProperties : Int → Int → Option Props
  stringify : Props → String
  renderHTML : String → String

/-- The module-level state of `app.js`, together with the two queues of asynchronous work the
script starts and never cancels. -/
structure State where
  /-- children of `scene` -/
  scene : List SceneObject
  size : Size
  camera : Camera
  renderer : Renderer
  ifcModels : List IfcModel
  preselectModel : HighlightRecord
  selectModel : HighlightRecord
  /-- overlays held by `ifc` (the subset manager) -/
  subsets : List Subset
  /-- the text shown by the `output` element, whose content the script sets through `innerHTML` -/
  output : String
  mouse : Vector2
  /-- pairs `(modelID, id)` of every `getItemProperties` promise not settled yet -/
  pendingFetches : List (Int × Int)
  /-- object URLs handed to `ifcLoader.load` whose parse has not ended yet -/
  pendingLoads : List Nat

/-! ## Library primitives -/

/-- Modelled from the spec: three.js `Object3D.add` is not in the repository; attaching an object
moves it to the end of the child list (an object already attached is detached first). -/
def sceneAdd (o : SceneObject) (children : List SceneObject) : List SceneObject :=
  children.erase o ++ [o]

/-- Modelled from the spec: three.js `Object3D.remove` is not in the repository; removing
`undefined` or an object that is not a child changes nothing. -/
def sceneRemove (o : Option SceneObject) (children : List SceneObject) : List SceneObject :=
  match o with
  | none => children
  | some x => children.erase x

/-- JavaScript `Array.prototype.pop`: the last entry (`undefined` on an empty array) and the
array without it. -/
def pop {α : Type} (xs : List α) : Option α × List α :=
  (xs.getLast?, xs.dropLast)

/-- Modelled from the spec: the overlay-removal primitive of §6(c) is not in the repository; it
takes `{modelId, material}` and discards the overlay kept for that pair, if any. -/
def removeSubset (modelID : Int) (material : Material) (subsets : List Subset) : List Subset :=
  subsets.filter (fun x => ¬(x.modelID = modelID ∧ x.material = material))

/-- Modelled from the spec: what the subset-overlay primitive of §6(c) does to one overlay it
holds: the overlay kept for the `{modelId, material}` of `config` is replaced by one isolated to
`ids` when `removePrevious` is set, and extended by `ids` otherwise; other overlays are kept. -/
def updateSubset (config : SubsetConfig) (x : Subset) : Subset :=
  if x.modelID = config.modelID ∧ x.material = config.material then
    { x with ids := if config.removePrevious then config.ids else x.ids ++ config.ids }
  else x

/-- Modelled from the spec: the subset-overlay primitive of §6(c) is not in the repository; the
manager keeps one overlay per `{modelId, material}`; with `removePrevious` the overlay is
replaced by one isolated to `ids`, without it `ids` are added to the overlay. -/
def createSubset (config : SubsetConfig) (subsets : List Subset) : List Subset :=
  if subsets.any (fun x => x.modelID = config.modelID ∧ x.material = config.material) then
    subsets.map (updateSubset config)
  else
    subsets ++ [{ modelID := config.modelID, material := config.material, ids := config.ids }]

/-- Modelled from the spec: `Raycaster.intersectObjects` is not in the repository; it intersects
the ray with each listed object only and returns the hits nearest first (§4.4). -/
def intersectObjects (lib : Lib) (mouse : Vector2) (camera : Camera) (objects : List IfcModel) :
    List Intersection :=
  (objects.flatMap (fun o =>
    (lib.intersectObject mouse camera o).map
      (fun h => { distance := h.1, object := o, faceIndex := h.2 }))).insertionSort
    (fun a b => a.distance ≤ b.distance)

/-! ## Accessors for the records passed by reference -/

/-- Read `model.id`. -/
def getId (model : ModelRef) (s : State) : Int :=
  match model with
  | .preselectModel => s.preselectModel.id
  | .selectModel => s.selectModel.id

/-- Write `model.id = v`. -/
def setId (model : ModelRef) (v : Int) (s : State) : State :=
  match model with
  | .preselectModel => { s with preselectModel := { id := v } }
  | .selectModel => { s with selectModel := { id := v } }

/-! ## The script -/

/-- Modelled from the spec: the page markup is not in the repository; the `output` element
starts empty (§6, output surface). -/
def initialOutput : String := ""

/-- The state once the module has been evaluated (`app.js:22-100`), for a window of the given
inner size and device pixel ratio; the turns of `animate` and the listeners registered by the
module are the events of `Event`. -/
def init (innerWidth innerHeight devicePixelRatio : ℚ) : State :=
  { scene := [.ambientLight, .directionalLight, .directionalLightTarget, .grid, .axes]
    size := { width := innerWidth, height := innerHeight }
    camera :=
      { fov := 75
        aspect := innerWidth / innerHeight
        projectionAspect := innerWidth / innerHeight
        position := { x := 8, y := 13, z := 15 }
        target := { x := -2, y := 0, z := 0 } }
    renderer := { width := innerWidth, height := innerHeight, pixelRatio := min devicePixelRatio 2 }
    ifcModels := []
    preselectModel := { id := -1 }
    selectModel := { id := -1 }
    subsets := []
    output := initialOutput
    mouse := { x := 0, y := 0 }
    pendingFetches := []
    pendingLoads := [] }

/-- Function `handleIfcModel` (`app.js:102-112`). Assigning `null` to `innerHTML` assigns the
empty string, which leaves the region without content. -/
def handleIfcModel (ifcModel : IfcModel) (s : State) : State :=
  let s := { s with subsets := removeSubset s.preselectModel.id .preselectMat s.subsets }
  let s := { s with subsets := removeSubset s.selectModel.id .selectMat s.subsets }
  let s := { s with output := "" }
  let popped := pop s.ifcModels
  let s := { s with
    ifcModels := popped.2
    scene := sceneRemove (popped.1.map SceneObject.ifcModel) s.scene }
  let s := { s with ifcModels := s.ifcModels ++ [ifcModel] }
  { s with scene := sceneAdd (.ifcModel ifcModel) s.scene }

/-- Function `cast` (`app.js:119-136`): writes `mouse` and returns the intersections with
`ifcModels`.
`bounds` is the value `threeCanvas.getBoundingClientRect()` has when the event is handled. -/
def cast (lib : Lib) (event : MouseEvent) (bounds : DOMRect) (s : State) :
    List Intersection × State :=
  let x1 := event.clientX - bounds.left
  let x2 := bounds.right - bounds.left
  let s := { s with mouse := { s.mouse with x := (x1 / x2) * 2 - 1 } }
  let y1 := event.clientY - bounds.top
  let y2 := bounds.bottom - bounds.top
  let s := { s with mouse := { s.mouse with y := -(y1 / y2) * 2 + 1 } }
  (intersectObjects lib s.mouse s.camera s.ifcModels, s)

/-- The `(modelID, id)` pair `pick` passes to `ifc.getItemProperties` (`app.js:139-143`). -/
def pickRequest (lib : Lib) (intersection : Intersection) : Int × Int :=
  let index := intersection.faceIndex
  let geometry := intersection.object.geometry
  let id := lib.getExpressId geometry index
  let modelID := intersection.object.modelID
  (modelID, id)

/-- Function `pick` up to its `await` (`app.js:138-143`): the fetch is started and left pending. -/
def pick (lib : Lib) (intersection : Intersection) (s : State) : State :=
  { s with pendingFetches := s.pendingFetches ++ [pickRequest lib intersection] }

/-- Function `pick` after its `await` (`app.js:144`), run when the fetch is fulfilled with
`props`: the formatted text is assigned to `output.innerHTML`, so the browser parses it as HTML
and the region shows the result of that parse. -/
def pickResume (lib : Lib) (props : Props) (s : State) : State :=
  { s with output := lib.renderHTML (lib.stringify props) }

/-- Function `highlight` (`app.js:147-164`). -/
def highlight (lib : Lib) (intersection : Intersection) (material : Material) (model : ModelRef)
    (s : State) : State :=
  let s := setId model intersection.object.modelID s
  let index := intersection.faceIndex
  let geometry := intersection.object.geometry
  let id := lib.getExpressId geometry index
  let config : SubsetConfig :=
    { modelID := getId model s, ids := [id], material := material, removePrevious := true }
  { s with subsets := createSubset config s.subsets }

/-- Function `handleDblClick` (`app.js:166-175`). -/
def handleDblClick (lib : Lib) (event : MouseEvent) (bounds : DOMRect) (material : Material)
    (model : ModelRef) (s : State) : State :=
  let r := cast lib event bounds s
  match r.1.head? with
  | some found => highlight lib found material model (pick lib found r.2)
  | none =>
    let s := { r.2 with subsets := removeSubset (getId model r.2) material r.2.subsets }
    { s with output := "" }

/-- Function `handleMouseMove` (`app.js:177-186`). -/
def handleMouseMove (lib : Lib) (event : MouseEvent) (bounds : DOMRect) (material : Material)
    (model : ModelRef) (s : State) : State :=
  let r := cast lib event bounds s
  match r.1.head? with
  | some found => highlight lib found material model r.2
  | none => { r.2 with subsets := removeSubset (getId model r.2) material r.2.subsets }

/-- The listener `threeCanvas.ondblclick` (`app.js:188-189`). -/
def ondblclick (lib : Lib) (event : MouseEvent) (bounds : DOMRect) (s : State) : State :=
  handleDblClick lib event bounds .selectMat .selectModel s

/-- The listener `window.onmousemove` (`app.js:191-192`). -/
def onmousemove (lib : Lib) (event : MouseEvent) (bounds : DOMRect) (s : State) : State :=
  handleMouseMove lib event bounds .preselectMat .preselectModel s

/-- The `change` listener of the file input (`app.js:195-203`). `files` is
`changed.target.files`, each file standing for the object URL created for it. With no file,
`URL.createObjectURL(undefined)` throws and the listener ends; otherwise the load is started and
left pending. -/
def onchange (files : List Nat) (s : State) : State :=
  match files.head? with
  | none => s
  | some ifcURL => { s with pendingLoads := s.pendingLoads ++ [ifcURL] }

/-- The end of the `i`-th pending `ifcLoader.load` (`app.js:200`): on success the callback
`(ifcModel) => handleIfcModel(ifcModel)` runs; on failure no callback of the script runs. -/
def loadSettled (i : Nat) (result : Option IfcModel) (s : State) : State :=
  if i < s.pendingLoads.length then
    let s := { s with pendingLoads := s.pendingLoads.eraseIdx i }
    match result with
    | some ifcModel => handleIfcModel ifcModel s
    | none => s
  else s

/-- The end of the `i`-th pending property fetch: `pick` resumes when the promise is fulfilled;
a rejection runs no code of the script. -/
def fetchSettled (lib : Lib) (i : Nat) (s : State) : State :=
  match s.pendingFetches.get? i with
  | none => s
  | some request =>
    let s := { s with pendingFetches := s.pendingFetches.eraseIdx i }
    match lib.getItemProperties request.1 request.2 with
    | some props => pickResume lib props s
    | none => s

/-- One turn of `animate` (`app.js:206-210`): `controls.update()` moves the camera to the pose
the orbit controls computed from the user's navigation; rendering reads the state only. -/
def animate (position target : Vector3) (s : State) : State :=
  { s with camera := { s.camera with position := position, target := target } }

/-- The `resize` listener (`app.js:215-221`). -/
def onresize (innerWidth innerHeight : ℚ) (s : State) : State :=
  let s := { s with size := { s.size with width := innerWidth } }
  let s := { s with size := { s.size with height := innerHeight } }
  let s := { s with camera := { s.camera with aspect := s.size.width / s.size.height } }
  let s := { s with camera := { s.camera with projectionAspect := s.camera.aspect } }
  { s with renderer := { s.renderer with width := s.size.width, height := s.size.height } }

/-! ## Executions -/

/-- What the browser can deliver to the script. -/
inductive Event where
  | dblclick (event : MouseEvent) (bounds : DOMRect)
  | mousemove (event : MouseEvent) (bounds : DOMRect)
  | change (files : List Nat)
  | loadSettled (i : Nat) (result : Option IfcModel)
  | fetchSettled (i : Nat)
  | animationFrame (position target : Vector3)
  | resize (innerWidth innerHeight : ℚ)

/-- Dispatch of one event to its listener. -/
def step (lib : Lib) (e : Event) (s : State) : State :=
  match e with
  | .dblclick event bounds => ondblclick lib event bounds s
  | .mousemove event bounds => onmousemove lib event bounds s
  | .change files => onchange files s
  | .loadSettled i result => loadSettled i result s
  | .fetchSettled i => fetchSettled lib i s
  | .animationFrame position target => animate position target s
  | .resize innerWidth innerHeight => onresize innerWidth innerHeight s

/-- The state after the events of `es` have been handled in order, starting from `s`. -/
def run (lib : Lib) (es : List Event) (s : State) : State :=
  es.foldl (fun s e => step lib e s) s

/-! ## Observations -/

/-- The models attached to the scene, in child order. -/
def sceneModels (s : State) : List IfcModel :=
  s.scene.filterMap (fun o => match o with
    | .ifcModel m => some m
    | _ => none)

/-- The overlays of one highlight mode (all overlays drawn with that mode's material). -/
def overlaysOf (material : Material) (s : State) : List Subset :=
  s.subsets.filter (fun x => x.material = material)

/-- The invariant of one highlight mode: its material has no overlay, or exactly one overlay,
which covers one element, belongs to the model id remembered for the mode, and that id is the id
of every resident model. -/
def ModeInv (material : Material) (model : ModelRef) (s : State) : Prop :=
  overlaysOf material s = [] ∨
    ((∃ id, overlaysOf material s =
        [{ modelID := getId model s, material := material, ids := [id] }])
      ∧ ∀ m ∈ s.ifcModels, m.modelID = getId model s)

/-- The invariant kept by every listener. -/
def Inv (s : State) : Prop :=
  s.ifcModels.length ≤ 1 ∧ sceneModels s = s.ifcModels ∧
    ModeInv .preselectMat .preselectModel s ∧ ModeInv .selectMat .selectModel s

/-! ## Derived notions used in the statements -/

/-- The value of `cast(event)[0]`. -/
def firstHit (lib : Lib) (event : MouseEvent) (bounds : DOMRect) (s : State) :
    Option Intersection :=
  (cast lib event bounds s).1.head?

/-- The overlay `highlight` asks for: the struck object's model id and the one element id the
struck face resolves to. -/
def overlayFor (lib : Lib) (material : Material) (found : Intersection) : Subset :=
  { modelID := found.object.modelID
    material := material
    ids := [lib.getExpressId found.object.geometry found.faceIndex] }

/-- The formatted text of the last property document fetched successfully while the events of
`es` were handled from `s` on, `last` when no fetch was fulfilled. -/
def lastFetched (lib : Lib) : List Event → State → Option String → Option String
  | [], _, last => last
  | e :: es, s, last =>
    lastFetched lib es (step lib e s)
      (match e with
        | .fetchSettled i =>
          (match s.pendingFetches.get? i with
            | some request =>
              (match lib.getItemProperties request.1 request.2 with
                | some props => some (lib.stringify props)
                | none => last)
            | none => last)
        | _ => last)

/-- An execution is free of races when no double-click and no successful model load is handled
while a property fetch is pending. -/
def raceFree (lib : Lib) : List Event → State → Bool
  | [], _ => true
  | e :: es, s =>
    (match e with
      | .dblclick _ _ => s.pendingFetches.isEmpty
      | .loadSettled _ (some _) => s.pendingFetches.isEmpty
      | _ => true) && raceFree lib es (step lib e s)

/-- The invariant that ties the output region to the selection in executions free of races. -/
def OutputInv (lib : Lib) (s : State) : Prop :=
  (overlaysOf .selectMat s = [] → s.output = "" ∧ s.pendingFetches = []) ∧
  ∀ M E, overlaysOf .selectMat s = [{ modelID := M, material := .selectMat, ids := [E] }] →
    s.pendingFetches = [(M, E)] ∨
      (s.pendingFetches = [] ∧
        ∀ props, lib.getItemProperties M E = some props →
          s.output = lib.renderHTML (lib.stringify props))

/-! ## Sample execution -/

/-- The text shown for markup whose every `<` opens a tag closed by the next `>` and which has
no character reference: the characters outside the tags. `inTag` tells whether the characters
read so far end inside a tag. -/
def stripTags : List Char → Bool → List Char
  | [], _ => []
  | c :: cs, true => if c = '>' then stripTags cs false else stripTags cs true
  | c :: cs, false => if c = '<' then stripTags cs true else c :: stripTags cs false

/-- A sample library: every object is struck, at face 2, by rays through the right half of the
canvas and by no ray through the left half; the element of a face is numbered after the geometry
and the face; element 9 has a property document of plain text, element 10 one whose value holds
markup, and no other element has a document; an element shows the characters outside the tags of
the markup assigned to it. -/
def sampleLib : Lib :=
  { intersectObject := fun mouse _ _ => if 0 ≤ mouse.x then [(5, 2)] else []
    getExpressId := fun geometry faceIndex => geometry + faceIndex
    getItemProperties := fun _ id =>
      if id = 9 then some [("type", "IfcWall")]
      else if id = 10 then some [("name", "<b>walls</b> & slabs")]
      else none
    stringify := fun props => String.intercalate ", " (props.map (fun p => p.1 ++ ": " ++ p.2))
    renderHTML := fun markup => String.mk (stripTags markup.data false) }

/-- A sample model with model id 0. -/
def sampleModel : IfcModel := { uuid := 1, modelID := 0, geometry := 7 }

/-- A canvas of 400 by 300 pixels at the origin of the page. -/
def sampleBounds : DOMRect := { left := 0, right := 400, top := 0, bottom := 300 }

/-- A pointer position in the right half of `sampleBounds`. -/
def hitEvent : MouseEvent := { clientX := 300, clientY := 150 }

/-- A pointer position in the left half of `sampleBounds`. -/
def missEvent : MouseEvent := { clientX := 100, clientY := 150 }

/-- A sample model with model id 1, whose face 2 belongs to element 10. -/
def markupModel : IfcModel := { uuid := 2, modelID := 1, geometry := 8 }

/-- The events of choosing a file and of its parse succeeding with `markupModel`. -/
def loadMarkup : List Event := [.change [1], .loadSettled 0 (some markupModel)]

/-- The events of loading `markupModel`, double-clicking its element 10 and the fetch settling
before anything else happens. -/
def markupSample : List Event :=
  loadMarkup ++ [Event.dblclick hitEvent sampleBounds, Event.fetchSettled 0]

/-- The events of choosing a file and of its parse succeeding with `sampleModel`. -/
def loadSample : List Event := [.change [0], .loadSettled 0 (some sampleModel)]

/-- The events of loading `sampleModel`, double-clicking its element 9 and the fetch settling. -/
def selectSample : List Event :=
  loadSample ++ [Event.dblclick hitEvent sampleBounds, Event.fetchSettled 0]

/-- The events of loading `sampleModel`, double-clicking its element 9, double-clicking empty
space, and only then the first fetch settling. -/
def raceSample : List Event :=
  loadSample ++ [Event.dblclick hitEvent sampleBounds, Event.dblclick missEvent sampleBounds,
    Event.fetchSettled 0]

/-- The events of loading `sampleModel`, selecting its element 9 with the fetch settling,
double-clicking empty space, and selecting element 9 again, the second fetch still pending. -/
def staleSample : List Event :=
  loadSample ++ [Event.dblclick hitEvent sampleBounds, Event.fetchSettled 0,
    Event.dblclick missEvent sampleBounds, Event.dblclick hitEvent sampleBounds]

/-! ## Lemmas on the library primitives -/

theorem filter_removeSubset_of_ne (modelID : Int) {material other : Material}
    (h : material ≠ other) (subsets : List Subset) :
    (removeSubset modelID material subsets).filter (fun x => x.material = other) =
      subsets.filter (fun x => x.material = other) := by
  unfold removeSubset
  rw [List.filter_filter]
  apply List.filter_congr
  intro x _
  by_cases hx : x.material = other
  · have hne : ¬ other = material := fun e => h e.symm
    simp [hx, hne]
  · simp [hx]

theorem filter_removeSubset_same (modelID : Int) (material : Material) (subsets : List Subset) :
    (removeSubset modelID material subsets).filter (fun x => x.material = material) =
      (subsets.filter (fun x => x.material = material)).filter
        (fun x => ¬ x.modelID = modelID) := by
  unfold removeSubset
  rw [List.filter_filter, List.filter_filter]
  apply List.filter_congr
  intro x _
  by_cases hx : x.material = material <;> by_cases hm : x.modelID = modelID <;> simp [hx, hm]

theorem updateSubset_material (config : SubsetConfig) (x : Subset) :
    (updateSubset config x).material = x.material := by
  unfold updateSubset
  split <;> rfl

theorem filter_createSubset_of_ne (config : SubsetConfig) {other : Material}
    (h : config.material ≠ other) (subsets : List Subset) :
    (createSubset config subsets).filter (fun x => x.material = other) =
      subsets.filter (fun x => x.material = other) := by
  unfold createSubset
  split
  · rw [List.filter_map]
    have h1 : ((fun x : Subset => decide (x.material = other)) ∘ updateSubset config) =
        (fun x : Subset => decide (x.material = other)) := by
      funext x
      simp [updateSubset_material]
    rw [h1]
    conv_rhs => rw [← List.map_id (List.filter (fun x => decide (x.material = other)) subsets)]
    apply List.map_congr_left
    intro x hx
    have hx2 : x.material = other := by simpa using (List.mem_filter.mp hx).2
    have hne : ¬ (x.modelID = config.modelID ∧ x.material = config.material) :=
      fun e => h (e.2 ▸ hx2)
    simp [updateSubset, hne]
  · simp [List.filter_append, List.filter_cons, h]

theorem filter_createSubset_same (config : SubsetConfig) (subsets : List Subset) :
    (createSubset config subsets).filter (fun x => x.material = config.material) =
      createSubset config (subsets.filter (fun x => x.material = config.material)) := by
  have hany : (subsets.filter (fun x => x.material = config.material)).any
        (fun x => x.modelID = config.modelID ∧ x.material = config.material) =
      subsets.any (fun x => x.modelID = config.modelID ∧ x.material = config.material) := by
    rw [Bool.eq_iff_iff]
    simp only [List.any_eq_true, List.mem_filter, decide_eq_true_eq]
    constructor
    · rintro ⟨x, ⟨hx, _⟩, hk⟩
      exact ⟨x, hx, hk⟩
    · rintro ⟨x, hx, hk⟩
      exact ⟨x, ⟨hx, hk.2⟩, hk⟩
  unfold createSubset
  rw [hany]
  split
  · rw [List.filter_map]
    have h1 : ((fun x : Subset => decide (x.material = config.material)) ∘ updateSubset config) =
        (fun x : Subset => decide (x.material = config.material)) := by
      funext x
      simp [updateSubset_material]
    rw [h1]
  · simp [List.filter_append, List.filter_cons]

theorem mem_intersectObjects {lib : Lib} {mouse : Vector2} {camera : Camera}
    {objects : List IfcModel} {h : Intersection}
    (hh : h ∈ intersectObjects lib mouse camera objects) : h.object ∈ objects := by
  unfold intersectObjects at hh
  rw [(List.perm_insertionSort _ _).mem_iff] at hh
  simp only [List.mem_flatMap, List.mem_map] at hh
  obtain ⟨o, ho, p, _, rfl⟩ := hh
  exact ho

theorem sceneModels_erase (m : IfcModel) (children : List SceneObject) :
    (children.erase (.ifcModel m)).filterMap (fun o => match o with
      | .ifcModel m => some m
      | _ => none) =
    (children.filterMap (fun o => match o with
      | .ifcModel m => some m
      | _ => none)).erase m := by
  induction children with
  | nil => rfl
  | cons a l ih =>
    cases a with
    | ifcModel x =>
      by_cases hx : x = m
      · subst hx; simp
      · have hne : SceneObject.ifcModel x ≠ SceneObject.ifcModel m := by
          intro e; exact hx (SceneObject.ifcModel.inj e)
        simp [List.erase_cons_tail, hne, hx, ih]
    | _ => simp [List.erase_cons_tail, ih]

/-! ## Frame lemmas for `cast`, `pick` and `highlight` -/

theorem cast_fst (lib : Lib) (event : MouseEvent) (bounds : DOMRect) (s : State) :
    (cast lib event bounds s).1 =
      intersectObjects lib (cast lib event bounds s).2.mouse s.camera s.ifcModels := rfl

theorem cast_snd_subsets (lib : Lib) (event : MouseEvent) (bounds : DOMRect) (s : State) :
    (cast lib event bounds s).2.subsets = s.subsets := rfl

theorem cast_snd_ifcModels (lib : Lib) (event : MouseEvent) (bounds : DOMRect) (s : State) :
    (cast lib event bounds s).2.ifcModels = s.ifcModels := rfl

theorem cast_snd_scene (lib : Lib) (event : MouseEvent) (bounds : DOMRect) (s : State) :
    (cast lib event bounds s).2.scene = s.scene := rfl

theorem cast_snd_output (lib : Lib) (event : MouseEvent) (bounds : DOMRect) (s : State) :
    (cast lib event bounds s).2.output = s.output := rfl

theorem cast_snd_pendingFetches (lib : Lib) (event : MouseEvent) (bounds : DOMRect) (s : State) :
    (cast lib event bounds s).2.pendingFetches = s.pendingFetches := rfl

theorem cast_snd_getId (lib : Lib) (event : MouseEvent) (bounds : DOMRect) (model : ModelRef)
    (s : State) : getId model (cast lib event bounds s).2 = getId model s := by
  cases model <;> rfl

theorem cast_head_mem {lib : Lib} {event : MouseEvent} {bounds : DOMRect} {s : State}
    {found : Intersection} (h : (cast lib event bounds s).1.head? = some found) :
    found.object ∈ s.ifcModels := by
  rw [cast_fst] at h
  exact mem_intersectObjects (List.mem_of_mem_head? h)

theorem highlight_subsets (lib : Lib) (found : Intersection) (material : Material)
    (model : ModelRef) (s : State) :
    (highlight lib found material model s).subsets =
      createSubset
        { modelID := found.object.modelID
          ids := [lib.getExpressId found.object.geometry found.faceIndex]
          material := material
          removePrevious := true } s.subsets := by
  cases model <;> rfl

theorem highlight_ifcModels (lib : Lib) (found : Intersection) (material : Material)
    (model : ModelRef) (s : State) :
    (highlight lib found material model s).ifcModels = s.ifcModels := by
  cases model <;> rfl

theorem highlight_scene (lib : Lib) (found : Intersection) (material : Material)
    (model : ModelRef) (s : State) :
    (highlight lib found material model s).scene = s.scene := by
  cases model <;> rfl

theorem highlight_output (lib : Lib) (found : Intersection) (material : Material)
    (model : ModelRef) (s : State) :
    (highlight lib found material model s).output = s.output := by
  cases model <;> rfl

theorem highlight_pendingFetches (lib : Lib) (found : Intersection) (material : Material)
    (model : ModelRef) (s : State) :
    (highlight lib found material model s).pendingFetches = s.pendingFetches := by
  cases model <;> rfl

theorem getId_highlight_self (lib : Lib) (found : Intersection) (material : Material)
    (model : ModelRef) (s : State) :
    getId model (highlight lib found material model s) = found.object.modelID := by
  cases model <;> rfl

theorem getId_highlight_of_ne (lib : Lib) (found : Intersection) (material : Material)
    {model other : ModelRef} (h : model ≠ other) (s : State) :
    getId other (highlight lib found material model s) = getId other s := by
  cases model <;> cases other <;> first | rfl | exact absurd rfl h

theorem overlaysOf_highlight_of_ne (lib : Lib) (found : Intersection) {material other : Material}
    (h : material ≠ other) (model : ModelRef) (s : State) :
    overlaysOf other (highlight lib found material model s) = overlaysOf other s := by
  unfold overlaysOf
  rw [highlight_subsets]
  exact filter_createSubset_of_ne _ h _

/-- On a state satisfying the mode invariant, a hit on a resident model leaves the mode with the
single overlay of the struck element. -/
theorem overlaysOf_highlight_same (lib : Lib) (found : Intersection) (material : Material)
    (model : ModelRef) (s : State) (hinv : ModeInv material model s)
    (hmem : found.object ∈ s.ifcModels) :
    overlaysOf material (highlight lib found material model s) =
      [{ modelID := found.object.modelID
         material := material
         ids := [lib.getExpressId found.object.geometry found.faceIndex] }] := by
  unfold overlaysOf
  rw [highlight_subsets]
  have key := filter_createSubset_same
    { modelID := found.object.modelID
      ids := [lib.getExpressId found.object.geometry found.faceIndex]
      material := material
      removePrevious := true } s.subsets
  simp only at key
  rw [key]
  rcases hinv with h0 | ⟨⟨id, h1⟩, h2⟩
  · unfold overlaysOf at h0
    rw [h0]
    simp [createSubset]
  · unfold overlaysOf at h1
    rw [h1, ← h2 _ hmem]
    simp [createSubset, updateSubset]

/-- On a state satisfying the mode invariant, removing the overlay of the remembered id leaves
the mode without overlay. -/
theorem filter_removeSubset_of_ModeInv {material : Material} {model : ModelRef} {s : State}
    (hinv : ModeInv material model s) :
    (removeSubset (getId model s) material s.subsets).filter (fun x => x.material = material) =
      [] := by
  rw [filter_removeSubset_same]
  rcases hinv with h0 | ⟨⟨id, h1⟩, _⟩
  · unfold overlaysOf at h0
    rw [h0]
    rfl
  · unfold overlaysOf at h1
    rw [h1]
    simp

theorem ModeInv_of_eq {material : Material} {model : ModelRef} {s t : State}
    (h : ModeInv material model s) (h1 : overlaysOf material t = overlaysOf material s)
    (h2 : getId model t = getId model s) (h3 : t.ifcModels = s.ifcModels) :
    ModeInv material model t := by
  unfold ModeInv
  rw [h1, h2, h3]
  exact h

theorem sceneModels_eq_of_scene_eq {s t : State} (h : t.scene = s.scene) :
    sceneModels t = sceneModels s := by
  unfold sceneModels
  rw [h]

theorem ModeInv_cast {lib : Lib} {event : MouseEvent} {bounds : DOMRect} {material : Material}
    {model : ModelRef} {s : State} (h : ModeInv material model s) :
    ModeInv material model (cast lib event bounds s).2 :=
  ModeInv_of_eq h rfl (cast_snd_getId lib event bounds model s) rfl

theorem ModeInv_pick {lib : Lib} {found : Intersection} {material : Material}
    {model : ModelRef} {s : State} (h : ModeInv material model s) :
    ModeInv material model (pick lib found s) :=
  ModeInv_of_eq h rfl (by cases model <;> rfl) rfl

/-! ## Effect of the two pointer handlers -/

theorem handleMouseMove_hit {lib : Lib} {event : MouseEvent} {bounds : DOMRect} {s : State}
    {found : Intersection} (h : firstHit lib event bounds s = some found)
    (material : Material) (model : ModelRef) :
    handleMouseMove lib event bounds material model s =
      highlight lib found material model (cast lib event bounds s).2 := by
  unfold firstHit at h
  unfold handleMouseMove
  simp only [h]

theorem handleMouseMove_miss {lib : Lib} {event : MouseEvent} {bounds : DOMRect} {s : State}
    (h : firstHit lib event bounds s = none) (material : Material) (model : ModelRef) :
    handleMouseMove lib event bounds material model s =
      { (cast lib event bounds s).2 with
        subsets := removeSubset (getId model (cast lib event bounds s).2) material
          (cast lib event bounds s).2.subsets } := by
  unfold firstHit at h
  unfold handleMouseMove
  simp only [h]

theorem handleDblClick_hit {lib : Lib} {event : MouseEvent} {bounds : DOMRect} {s : State}
    {found : Intersection} (h : firstHit lib event bounds s = some found)
    (material : Material) (model : ModelRef) :
    handleDblClick lib event bounds material model s =
      highlight lib found material model (pick lib found (cast lib event bounds s).2) := by
  unfold firstHit at h
  unfold handleDblClick
  simp only [h]

theorem handleDblClick_miss {lib : Lib} {event : MouseEvent} {bounds : DOMRect} {s : State}
    (h : firstHit lib event bounds s = none) (material : Material) (model : ModelRef) :
    handleDblClick lib event bounds material model s =
      { (cast lib event bounds s).2 with
        subsets := removeSubset (getId model (cast lib event bounds s).2) material
          (cast lib event bounds s).2.subsets
        output := "" } := by
  unfold firstHit at h
  unfold handleDblClick
  simp only [h]

theorem firstHit_mem {lib : Lib} {event : MouseEvent} {bounds : DOMRect} {s : State}
    {found : Intersection} (h : firstHit lib event bounds s = some found) :
    found.object ∈ s.ifcModels :=
  cast_head_mem h

/-- What a pointer move leaves as the overlays of its mode. -/
theorem overlaysOf_handleMouseMove (lib : Lib) (event : MouseEvent) (bounds : DOMRect)
    (material : Material) (model : ModelRef) (s : State) (hinv : ModeInv material model s) :
    overlaysOf material (handleMouseMove lib event bounds material model s) =
      match firstHit lib event bounds s with
      | some found => [overlayFor lib material found]
      | none => [] := by
  cases h : firstHit lib event bounds s with
  | some found =>
    rw [handleMouseMove_hit h]
    exact overlaysOf_highlight_same lib found material model _ (ModeInv_cast hinv)
      (firstHit_mem h)
  | none =>
    rw [handleMouseMove_miss h]
    have := filter_removeSubset_of_ModeInv
      (@ModeInv_cast lib event bounds material model s hinv)
    simpa [overlaysOf] using this

/-- What a double-click leaves as the overlays of its mode. -/
theorem overlaysOf_handleDblClick (lib : Lib) (event : MouseEvent) (bounds : DOMRect)
    (material : Material) (model : ModelRef) (s : State) (hinv : ModeInv material model s) :
    overlaysOf material (handleDblClick lib event bounds material model s) =
      match firstHit lib event bounds s with
      | some found => [overlayFor lib material found]
      | none => [] := by
  cases h : firstHit lib event bounds s with
  | some found =>
    rw [handleDblClick_hit h]
    exact overlaysOf_highlight_same lib found material model _ (ModeInv_pick (ModeInv_cast hinv))
      (firstHit_mem h)
  | none =>
    rw [handleDblClick_miss h]
    have := filter_removeSubset_of_ModeInv
      (@ModeInv_cast lib event bounds material model s hinv)
    simpa [overlaysOf] using this

theorem overlaysOf_handleMouseMove_of_ne (lib : Lib) (event : MouseEvent) (bounds : DOMRect)
    {material other : Material} (hne : material ≠ other) (model : ModelRef) (s : State) :
    overlaysOf other (handleMouseMove lib event bounds material model s) = overlaysOf other s := by
  cases h : firstHit lib event bounds s with
  | some found =>
    rw [handleMouseMove_hit h, overlaysOf_highlight_of_ne lib found hne]
    rfl
  | none =>
    rw [handleMouseMove_miss h]
    exact filter_removeSubset_of_ne _ hne _

theorem overlaysOf_handleDblClick_of_ne (lib : Lib) (event : MouseEvent) (bounds : DOMRect)
    {material other : Material} (hne : material ≠ other) (model : ModelRef) (s : State) :
    overlaysOf other (handleDblClick lib event bounds material model s) = overlaysOf other s := by
  cases h : firstHit lib event bounds s with
  | some found =>
    rw [handleDblClick_hit h, overlaysOf_highlight_of_ne lib found hne]
    rfl
  | none =>
    rw [handleDblClick_miss h]
    exact filter_removeSubset_of_ne _ hne _

theorem getId_handleMouseMove_of_ne (lib : Lib) (event : MouseEvent) (bounds : DOMRect)
    (material : Material) {model other : ModelRef} (hne : model ≠ other) (s : State) :
    getId other (handleMouseMove lib event bounds material model s) = getId other s := by
  cases h : firstHit lib event bounds s with
  | some found =>
    rw [handleMouseMove_hit h, getId_highlight_of_ne lib found material hne]
    exact cast_snd_getId lib event bounds other s
  | none =>
    rw [handleMouseMove_miss h]
    cases other <;> rfl

theorem getId_handleDblClick_of_ne (lib : Lib) (event : MouseEvent) (bounds : DOMRect)
    (material : Material) {model other : ModelRef} (hne : model ≠ other) (s : State) :
    getId other (handleDblClick lib event bounds material model s) = getId other s := by
  cases h : firstHit lib event bounds s with
  | some found =>
    rw [handleDblClick_hit h, getId_highlight_of_ne lib found material hne]
    cases other <;> rfl
  | none =>
    rw [handleDblClick_miss h]
    cases other <;> rfl

theorem handleMouseMove_ifcModels (lib : Lib) (event : MouseEvent) (bounds : DOMRect)
    (material : Material) (model : ModelRef) (s : State) :
    (handleMouseMove lib event bounds material model s).ifcModels = s.ifcModels := by
  cases h : firstHit lib event bounds s with
  | some found => rw [handleMouseMove_hit h, highlight_ifcModels]; rfl
  | none => rw [handleMouseMove_miss h]; rfl

theorem handleMouseMove_scene (lib : Lib) (event : MouseEvent) (bounds : DOMRect)
    (material : Material) (model : ModelRef) (s : State) :
    (handleMouseMove lib event bounds material model s).scene = s.scene := by
  cases h : firstHit lib event bounds s with
  | some found => rw [handleMouseMove_hit h, highlight_scene]; rfl
  | none => rw [handleMouseMove_miss h]; rfl

theorem handleMouseMove_output (lib : Lib) (event : MouseEvent) (bounds : DOMRect)
    (material : Material) (model : ModelRef) (s : State) :
    (handleMouseMove lib event bounds material model s).output = s.output := by
  cases h : firstHit lib event bounds s with
  | some found => rw [handleMouseMove_hit h, highlight_output]; rfl
  | none => rw [handleMouseMove_miss h]; rfl

theorem handleMouseMove_pendingFetches (lib : Lib) (event : MouseEvent) (bounds : DOMRect)
    (material : Material) (model : ModelRef) (s : State) :
    (handleMouseMove lib event bounds material model s).pendingFetches = s.pendingFetches := by
  cases h : firstHit lib event bounds s with
  | some found => rw [handleMouseMove_hit h, highlight_pendingFetches]; rfl
  | none => rw [handleMouseMove_miss h]; rfl

theorem handleDblClick_ifcModels (lib : Lib) (event : MouseEvent) (bounds : DOMRect)
    (material : Material) (model : ModelRef) (s : State) :
    (handleDblClick lib event bounds material model s).ifcModels = s.ifcModels := by
  cases h : firstHit lib event bounds s with
  | some found => rw [handleDblClick_hit h, highlight_ifcModels]; rfl
  | none => rw [handleDblClick_miss h]; rfl

theorem handleDblClick_scene (lib : Lib) (event : MouseEvent) (bounds : DOMRect)
    (material : Material) (model : ModelRef) (s : State) :
    (handleDblClick lib event bounds material model s).scene = s.scene := by
  cases h : firstHit lib event bounds s with
  | some found => rw [handleDblClick_hit h, highlight_scene]; rfl
  | none => rw [handleDblClick_miss h]; rfl

/-! ## Preservation of the invariant -/

theorem eq_of_mem_of_length_le_one {α : Type} {l : List α} (hlen : l.length ≤ 1) {a b : α}
    (ha : a ∈ l) (hb : b ∈ l) : a = b := by
  match l, hlen with
  | [], _ => cases ha
  | [x], _ =>
    rw [List.mem_singleton] at ha hb
    rw [ha, hb]
  | _ :: _ :: _, h => simp at h

theorem ModeInv_handleMouseMove_same {lib : Lib} {event : MouseEvent} {bounds : DOMRect}
    {material : Material} {model : ModelRef} {s : State} (hlen : s.ifcModels.length ≤ 1)
    (hinv : ModeInv material model s) :
    ModeInv material model (handleMouseMove lib event bounds material model s) := by
  have hov := overlaysOf_handleMouseMove lib event bounds material model s hinv
  cases h : firstHit lib event bounds s with
  | none =>
    rw [h] at hov
    exact Or.inl hov
  | some found =>
    rw [h] at hov
    have hid : getId model (handleMouseMove lib event bounds material model s) =
        found.object.modelID := by
      rw [handleMouseMove_hit h, getId_highlight_self]
    refine Or.inr ⟨⟨lib.getExpressId found.object.geometry found.faceIndex, ?_⟩, ?_⟩
    · rw [hov, hid]
      rfl
    · intro m hm
      rw [handleMouseMove_ifcModels] at hm
      rw [hid, eq_of_mem_of_length_le_one hlen hm (firstHit_mem h)]

theorem ModeInv_handleDblClick_same {lib : Lib} {event : MouseEvent} {bounds : DOMRect}
    {material : Material} {model : ModelRef} {s : State} (hlen : s.ifcModels.length ≤ 1)
    (hinv : ModeInv material model s) :
    ModeInv material model (handleDblClick lib event bounds material model s) := by
  have hov := overlaysOf_handleDblClick lib event bounds material model s hinv
  cases h : firstHit lib event bounds s with
  | none =>
    rw [h] at hov
    exact Or.inl hov
  | some found =>
    rw [h] at hov
    have hid : getId model (handleDblClick lib event bounds material model s) =
        found.object.modelID := by
      rw [handleDblClick_hit h, getId_highlight_self]
    refine Or.inr ⟨⟨lib.getExpressId found.object.geometry found.faceIndex, ?_⟩, ?_⟩
    · rw [hov, hid]
      rfl
    · intro m hm
      rw [handleDblClick_ifcModels] at hm
      rw [hid, eq_of_mem_of_length_le_one hlen hm (firstHit_mem h)]

theorem Inv_onmousemove {lib : Lib} {event : MouseEvent} {bounds : DOMRect} {s : State}
    (h : Inv s) : Inv (onmousemove lib event bounds s) := by
  obtain ⟨hlen, hscene, hpre, hsel⟩ := h
  unfold onmousemove
  refine ⟨?_, ?_, ModeInv_handleMouseMove_same hlen hpre, ?_⟩
  · rw [handleMouseMove_ifcModels]; exact hlen
  · rw [sceneModels_eq_of_scene_eq (handleMouseMove_scene ..), handleMouseMove_ifcModels]
    exact hscene
  · exact ModeInv_of_eq hsel (overlaysOf_handleMouseMove_of_ne lib event bounds (by decide) _ s)
      (getId_handleMouseMove_of_ne lib event bounds _ (by decide) s)
      (handleMouseMove_ifcModels ..)

theorem Inv_ondblclick {lib : Lib} {event : MouseEvent} {bounds : DOMRect} {s : State}
    (h : Inv s) : Inv (ondblclick lib event bounds s) := by
  obtain ⟨hlen, hscene, hpre, hsel⟩ := h
  unfold ondblclick
  refine ⟨?_, ?_, ?_, ModeInv_handleDblClick_same hlen hsel⟩
  · rw [handleDblClick_ifcModels]; exact hlen
  · rw [sceneModels_eq_of_scene_eq (handleDblClick_scene ..), handleDblClick_ifcModels]
    exact hscene
  · exact ModeInv_of_eq hpre (overlaysOf_handleDblClick_of_ne lib event bounds (by decide) _ s)
      (getId_handleDblClick_of_ne lib event bounds _ (by decide) s)
      (handleDblClick_ifcModels ..)

theorem handleIfcModel_output (ifcModel : IfcModel) (s : State) :
    (handleIfcModel ifcModel s).output = "" := rfl

theorem handleIfcModel_ifcModels (ifcModel : IfcModel) (s : State) :
    (handleIfcModel ifcModel s).ifcModels = s.ifcModels.dropLast ++ [ifcModel] := rfl

theorem handleIfcModel_scene (ifcModel : IfcModel) (s : State) :
    (handleIfcModel ifcModel s).scene =
      sceneAdd (.ifcModel ifcModel)
        (sceneRemove (s.ifcModels.getLast?.map SceneObject.ifcModel) s.scene) := rfl

theorem handleIfcModel_subsets (ifcModel : IfcModel) (s : State) :
    (handleIfcModel ifcModel s).subsets =
      removeSubset s.selectModel.id .selectMat
        (removeSubset s.preselectModel.id .preselectMat s.subsets) := rfl

theorem handleIfcModel_getId (ifcModel : IfcModel) (model : ModelRef) (s : State) :
    getId model (handleIfcModel ifcModel s) = getId model s := by
  cases model <;> rfl

theorem handleIfcModel_pendingFetches (ifcModel : IfcModel) (s : State) :
    (handleIfcModel ifcModel s).pendingFetches = s.pendingFetches := rfl

theorem dropLast_of_length_le_one {α : Type} {l : List α} (hlen : l.length ≤ 1) :
    l.dropLast = [] := by
  match l, hlen with
  | [], _ => rfl
  | [_], _ => rfl
  | _ :: _ :: _, h => simp at h

theorem ifcModels_handleIfcModel_of_Inv (ifcModel : IfcModel) {s : State} (h : Inv s) :
    (handleIfcModel ifcModel s).ifcModels = [ifcModel] := by
  rw [handleIfcModel_ifcModels, dropLast_of_length_le_one h.1]
  rfl

theorem sceneModels_handleIfcModel_of_Inv (ifcModel : IfcModel) {s : State} (h : Inv s) :
    sceneModels (handleIfcModel ifcModel s) = [ifcModel] := by
  obtain ⟨hlen, hscene, -, -⟩ := h
  have hrem : sceneModels { s with
      scene := sceneRemove (s.ifcModels.getLast?.map SceneObject.ifcModel) s.scene } = [] := by
    unfold sceneModels at hscene ⊢
    match hl : s.ifcModels, hlen with
    | [], _ =>
      rw [hl] at hscene
      simpa [sceneRemove] using hscene
    | [a], _ =>
      rw [hl] at hscene
      simp only [List.getLast?_singleton, Option.map_some', sceneRemove]
      rw [sceneModels_erase, hscene]
      simp
    | _ :: _ :: _, h => simp at h
  unfold sceneModels at hrem ⊢
  rw [handleIfcModel_scene]
  simp only at hrem
  unfold sceneAdd
  rw [List.filterMap_append, sceneModels_erase, hrem]
  simp

theorem overlaysOf_preselect_handleIfcModel_of_Inv (ifcModel : IfcModel) {s : State} (h : Inv s) :
    overlaysOf .preselectMat (handleIfcModel ifcModel s) = [] := by
  unfold overlaysOf
  rw [handleIfcModel_subsets, filter_removeSubset_of_ne _ (by decide)]
  exact @filter_removeSubset_of_ModeInv .preselectMat .preselectModel s h.2.2.1

theorem overlaysOf_select_handleIfcModel_of_Inv (ifcModel : IfcModel) {s : State} (h : Inv s) :
    overlaysOf .selectMat (handleIfcModel ifcModel s) = [] := by
  unfold overlaysOf
  rw [handleIfcModel_subsets, filter_removeSubset_same, filter_removeSubset_of_ne _ (by decide),
    ← filter_removeSubset_same]
  exact @filter_removeSubset_of_ModeInv .selectMat .selectModel s h.2.2.2

theorem Inv_handleIfcModel (ifcModel : IfcModel) {s : State} (h : Inv s) :
    Inv (handleIfcModel ifcModel s) := by
  refine ⟨?_, ?_, Or.inl (overlaysOf_preselect_handleIfcModel_of_Inv ifcModel h),
    Or.inl (overlaysOf_select_handleIfcModel_of_Inv ifcModel h)⟩
  · rw [ifcModels_handleIfcModel_of_Inv ifcModel h]
    exact le_refl 1
  · rw [ifcModels_handleIfcModel_of_Inv ifcModel h, sceneModels_handleIfcModel_of_Inv ifcModel h]

theorem Inv_of_fields {s t : State} (h : Inv s) (h1 : t.ifcModels = s.ifcModels)
    (h2 : t.scene = s.scene) (h3 : t.subsets = s.subsets)
    (h4 : t.preselectModel = s.preselectModel) (h5 : t.selectModel = s.selectModel) :
    Inv t := by
  obtain ⟨hlen, hscene, hpre, hsel⟩ := h
  refine ⟨h1 ▸ hlen, ?_, ?_, ?_⟩
  · rw [sceneModels_eq_of_scene_eq h2, h1]
    exact hscene
  · exact ModeInv_of_eq hpre (by unfold overlaysOf; rw [h3]) (by unfold getId; simp only [h4]) h1
  · exact ModeInv_of_eq hsel (by unfold overlaysOf; rw [h3]) (by unfold getId; simp only [h5]) h1

theorem Inv_step (lib : Lib) (e : Event) {s : State} (h : Inv s) : Inv (step lib e s) := by
  cases e with
  | dblclick event bounds => exact Inv_ondblclick h
  | mousemove event bounds => exact Inv_onmousemove h
  | change files =>
    show Inv (onchange files s)
    unfold onchange
    split
    · exact h
    · exact Inv_of_fields h rfl rfl rfl rfl rfl
  | loadSettled i result =>
    show Inv (loadSettled i result s)
    unfold loadSettled
    split
    · cases result with
      | none => exact Inv_of_fields h rfl rfl rfl rfl rfl
      | some m => exact Inv_handleIfcModel m (Inv_of_fields h rfl rfl rfl rfl rfl)
    · exact h
  | fetchSettled i =>
    show Inv (fetchSettled lib i s)
    unfold fetchSettled
    split
    · exact h
    · split
      · exact Inv_of_fields h rfl rfl rfl rfl rfl
      · exact Inv_of_fields h rfl rfl rfl rfl rfl
  | animationFrame position target => exact Inv_of_fields h rfl rfl rfl rfl rfl
  | resize innerWidth innerHeight => exact Inv_of_fields h rfl rfl rfl rfl rfl

theorem Inv_init (innerWidth innerHeight devicePixelRatio : ℚ) :
    Inv (init innerWidth innerHeight devicePixelRatio) := by
  refine ⟨by simp [init], rfl, Or.inl rfl, Or.inl rfl⟩

theorem Inv_run (lib : Lib) (es : List Event) {s : State} (h : Inv s) : Inv (run lib es s) := by
  induction es generalizing s with
  | nil => exact h
  | cons e es ih => exact ih (Inv_step lib e h)

theorem mem_overlaysOf_modelID {material : Material} {model : ModelRef} {s : State}
    (h : ModeInv material model s) {x : Subset} (hx : x ∈ overlaysOf material s) :
    x.modelID = getId model s := by
  rcases h with h0 | ⟨⟨id, h1⟩, _⟩
  · rw [h0] at hx
    cases hx
  · rw [h1, List.mem_singleton] at hx
    rw [hx]

theorem overlaysOf_shape {material : Material} {model : ModelRef} {s : State}
    (h : ModeInv material model s) :
    (overlaysOf material s).length ≤ 1 ∧ ∀ x ∈ overlaysOf material s, x.ids.length = 1 := by
  rcases h with h0 | ⟨⟨id, h1⟩, _⟩
  · rw [h0]
    exact ⟨Nat.zero_le 1, fun x hx => by cases hx⟩
  · rw [h1]
    refine ⟨le_refl 1, fun x hx => ?_⟩
    rw [List.mem_singleton] at hx
    rw [hx]
    rfl

/-! ## Pointer coordinates, property fetches and the output region -/

theorem handleMouseMove_mouse (lib : Lib) (event : MouseEvent) (bounds : DOMRect)
    (material : Material) (model : ModelRef) (s : State) :
    (handleMouseMove lib event bounds material model s).mouse =
      (cast lib event bounds s).2.mouse := by
  cases h : firstHit lib event bounds s with
  | some found => rw [handleMouseMove_hit h]; cases model <;> rfl
  | none => rw [handleMouseMove_miss h]

theorem handleDblClick_mouse (lib : Lib) (event : MouseEvent) (bounds : DOMRect)
    (material : Material) (model : ModelRef) (s : State) :
    (handleDblClick lib event bounds material model s).mouse =
      (cast lib event bounds s).2.mouse := by
  cases h : firstHit lib event bounds s with
  | some found => rw [handleDblClick_hit h]; cases model <;> rfl
  | none => rw [handleDblClick_miss h]

theorem unit_range_iff (c lo hi : ℚ) (h : lo < hi) :
    (0 ≤ (c - lo) / (hi - lo) ∧ (c - lo) / (hi - lo) ≤ 1) ↔ (lo ≤ c ∧ c ≤ hi) := by
  have hpos : 0 < hi - lo := sub_pos.mpr h
  rw [le_div_iff₀ hpos, div_le_iff₀ hpos]
  constructor
  · rintro ⟨h1, h2⟩
    constructor <;> linarith
  · rintro ⟨h1, h2⟩
    constructor <;> linarith

theorem handleDblClick_hit_pendingFetches {lib : Lib} {event : MouseEvent} {bounds : DOMRect}
    {s : State} {found : Intersection} (h : firstHit lib event bounds s = some found)
    (material : Material) (model : ModelRef) :
    (handleDblClick lib event bounds material model s).pendingFetches =
      s.pendingFetches ++ [pickRequest lib found] := by
  rw [handleDblClick_hit h, highlight_pendingFetches]
  rfl

theorem handleDblClick_hit_output {lib : Lib} {event : MouseEvent} {bounds : DOMRect}
    {s : State} {found : Intersection} (h : firstHit lib event bounds s = some found)
    (material : Material) (model : ModelRef) :
    (handleDblClick lib event bounds material model s).output = s.output := by
  rw [handleDblClick_hit h, highlight_output]
  rfl

theorem handleDblClick_miss_output {lib : Lib} {event : MouseEvent} {bounds : DOMRect}
    {s : State} (h : firstHit lib event bounds s = none)
    (material : Material) (model : ModelRef) :
    (handleDblClick lib event bounds material model s).output = "" := by
  rw [handleDblClick_miss h]

theorem handleDblClick_miss_pendingFetches {lib : Lib} {event : MouseEvent} {bounds : DOMRect}
    {s : State} (h : firstHit lib event bounds s = none)
    (material : Material) (model : ModelRef) :
    (handleDblClick lib event bounds material model s).pendingFetches = s.pendingFetches := by
  rw [handleDblClick_miss h]
  rfl

theorem fetchSettled_of_get {lib : Lib} {i : Nat} {s : State} {request : Int × Int}
    (h : s.pendingFetches.get? i = some request) :
    fetchSettled lib i s =
      match lib.getItemProperties request.1 request.2 with
      | some props => pickResume lib props { s with pendingFetches := s.pendingFetches.eraseIdx i }
      | none => { s with pendingFetches := s.pendingFetches.eraseIdx i } := by
  unfold fetchSettled
  simp only [h]

theorem fetchSettled_of_none {lib : Lib} {i : Nat} {s : State}
    (h : s.pendingFetches.get? i = none) : fetchSettled lib i s = s := by
  unfold fetchSettled
  simp only [h]

theorem fetchSettled_fulfilled_output {lib : Lib} {i : Nat} {s : State} {request : Int × Int}
    {props : Props} (h : s.pendingFetches.get? i = some request)
    (hp : lib.getItemProperties request.1 request.2 = some props) :
    (fetchSettled lib i s).output = lib.renderHTML (lib.stringify props) := by
  rw [fetchSettled_of_get h]
  simp only [hp]
  rfl

theorem fetchSettled_rejected_output {lib : Lib} {i : Nat} {s : State} {request : Int × Int}
    (h : s.pendingFetches.get? i = some request)
    (hp : lib.getItemProperties request.1 request.2 = none) :
    (fetchSettled lib i s).output = s.output := by
  rw [fetchSettled_of_get h]
  simp only [hp]

theorem fetchSettled_subsets (lib : Lib) (i : Nat) (s : State) :
    (fetchSettled lib i s).subsets = s.subsets := by
  unfold fetchSettled
  split
  · rfl
  · split <;> rfl

theorem fetchSettled_pendingFetches (lib : Lib) (i : Nat) (s : State) :
    (fetchSettled lib i s).pendingFetches = s.pendingFetches.eraseIdx i := by
  unfold fetchSettled
  split
  · rename_i h
    rw [List.get?_eq_none] at h
    rw [List.eraseIdx_of_length_le h]
  · split <;> rfl

theorem OutputInv_of_eq {lib : Lib} {s t : State} (h : OutputInv lib s)
    (h1 : overlaysOf .selectMat t = overlaysOf .selectMat s) (h2 : t.output = s.output)
    (h3 : t.pendingFetches = s.pendingFetches) : OutputInv lib t := by
  unfold OutputInv
  rw [h1, h2, h3]
  exact h

theorem OutputInv_of_cleared {lib : Lib} {t : State} (h1 : overlaysOf .selectMat t = [])
    (h2 : t.output = "") (h3 : t.pendingFetches = []) : OutputInv lib t := by
  refine ⟨fun _ => ⟨h2, h3⟩, fun M E h => ?_⟩
  rw [h1] at h
  cases h

theorem OutputInv_ondblclick {lib : Lib} {event : MouseEvent} {bounds : DOMRect} {s : State}
    (hinv : Inv s) (hq : s.pendingFetches = []) :
    OutputInv lib (ondblclick lib event bounds s) := by
  have hov := overlaysOf_handleDblClick lib event bounds .selectMat .selectModel s hinv.2.2.2
  unfold ondblclick
  cases h : firstHit lib event bounds s with
  | none =>
    rw [h] at hov
    exact OutputInv_of_cleared hov (handleDblClick_miss_output h _ _)
      ((handleDblClick_miss_pendingFetches h _ _).trans hq)
  | some found =>
    rw [h] at hov
    refine ⟨fun h0 => ?_, fun M E hME => Or.inl ?_⟩
    · rw [hov] at h0
      cases h0
    · rw [hov] at hME
      have hsub := List.cons.inj hME
      have hM : found.object.modelID = M := congrArg Subset.modelID hsub.1
      have hE : [lib.getExpressId found.object.geometry found.faceIndex] = [E] :=
        congrArg Subset.ids hsub.1
      rw [handleDblClick_hit_pendingFetches h, hq, ← hM, ← (List.cons.inj hE).1]
      rfl

theorem OutputInv_fetchSettled {lib : Lib} {i : Nat} {s : State}
    (h : OutputInv lib s) : OutputInv lib (fetchSettled lib i s) := by
  cases hget : s.pendingFetches.get? i with
  | none => rw [fetchSettled_of_none hget]; exact h
  | some request =>
    have hsel : overlaysOf .selectMat (fetchSettled lib i s) = overlaysOf .selectMat s := by
      unfold overlaysOf
      rw [fetchSettled_subsets]
    refine ⟨fun h0 => ?_, fun M E hME => ?_⟩
    · rw [hsel] at h0
      rw [(h.1 h0).2] at hget
      cases hget
    · rw [hsel] at hME
      rcases h.2 M E hME with hp | ⟨hp, _⟩
      · rw [hp] at hget
        cases i with
        | succ j => cases hget
        | zero =>
          have hreq : request = (M, E) := by
            simp only [List.get?_cons_zero, Option.some.injEq] at hget
            exact hget.symm
          right
          refine ⟨?_, fun props hprops => ?_⟩
          · rw [fetchSettled_pendingFetches, hp]
            rfl
          · have hg : s.pendingFetches.get? 0 = some (M, E) := by rw [hp]; rfl
            exact fetchSettled_fulfilled_output hg hprops
      · rw [hp] at hget
        cases hget

theorem OutputInv_step {lib : Lib} {e : Event} {s : State} (hinv : Inv s) (h : OutputInv lib s)
    (hq : raceFree lib [e] s = true) : OutputInv lib (step lib e s) := by
  cases e with
  | dblclick event bounds =>
    have hq2 : s.pendingFetches = [] := by simpa [raceFree] using hq
    exact OutputInv_ondblclick hinv hq2
  | mousemove event bounds =>
    exact OutputInv_of_eq h (overlaysOf_handleMouseMove_of_ne lib event bounds (by decide) _ s)
      (handleMouseMove_output ..) (handleMouseMove_pendingFetches ..)
  | change files =>
    show OutputInv lib (onchange files s)
    unfold onchange
    split
    · exact h
    · exact OutputInv_of_eq h rfl rfl rfl
  | loadSettled i result =>
    show OutputInv lib (loadSettled i result s)
    unfold loadSettled
    split
    · cases result with
      | none => exact OutputInv_of_eq h rfl rfl rfl
      | some m =>
        have hq2 : s.pendingFetches = [] := by simpa [raceFree] using hq
        exact OutputInv_of_cleared
          (overlaysOf_select_handleIfcModel_of_Inv m (Inv_of_fields hinv rfl rfl rfl rfl rfl))
          rfl hq2
    · exact h
  | fetchSettled i => exact OutputInv_fetchSettled h
  | animationFrame position target => exact OutputInv_of_eq h rfl rfl rfl
  | resize innerWidth innerHeight => exact OutputInv_of_eq h rfl rfl rfl

theorem raceFree_cons {lib : Lib} {e : Event} {es : List Event} {s : State}
    (h : raceFree lib (e :: es) s = true) :
    raceFree lib [e] s = true ∧ raceFree lib es (step lib e s) = true := by
  simp only [raceFree, Bool.and_eq_true] at h ⊢
  exact ⟨⟨h.1, trivial⟩, h.2⟩

theorem OutputInv_run {lib : Lib} (es : List Event) {s : State} (hinv : Inv s)
    (h : OutputInv lib s) (hq : raceFree lib es s = true) : OutputInv lib (run lib es s) := by
  induction es generalizing s with
  | nil => exact h
  | cons e es ih =>
    obtain ⟨hq1, hq2⟩ := raceFree_cons hq
    exact ih (Inv_step lib e hinv) (OutputInv_step hinv h hq1) hq2

theorem OutputInv_init (lib : Lib) (innerWidth innerHeight devicePixelRatio : ℚ) :
    OutputInv lib (init innerWidth innerHeight devicePixelRatio) :=
  OutputInv_of_cleared rfl rfl rfl

/-! ## Evaluation of the sample executions -/

theorem loadSample_cast_hit :
    (cast sampleLib hitEvent sampleBounds (run sampleLib loadSample (init 800 600 1))).1.head? =
      some { distance := 5, object := sampleModel, faceIndex := 2 } := by
  simp [run, step, loadSample, ondblclick, handleDblClick, cast,
    intersectObjects, sampleLib, hitEvent, missEvent, sampleBounds, onchange, loadSettled,
    handleIfcModel, init, initialOutput, pop, sceneRemove, sceneAdd, removeSubset, createSubset,
    highlight, pick, pickRequest, fetchSettled, pickResume, setId, getId, sampleModel,
    updateSubset, stripTags]
  norm_num

theorem sampleLib_getItemProperties :
    sampleLib.getItemProperties 0 9 = some [("type", "IfcWall")] := by
  simp [sampleLib]

theorem selectSample_raceFree :
    raceFree sampleLib selectSample (init 800 600 1) = true := by
  simp [run, step, raceFree, selectSample, loadSample, ondblclick, handleDblClick, cast,
    intersectObjects, sampleLib, hitEvent, missEvent, sampleBounds, onchange, loadSettled,
    handleIfcModel, init, initialOutput, pop, sceneRemove, sceneAdd, removeSubset, createSubset,
    highlight, pick, pickRequest, fetchSettled, pickResume, setId, getId, sampleModel,
    updateSubset, stripTags]

theorem selectSample_overlaysOf :
    overlaysOf .selectMat (run sampleLib selectSample (init 800 600 1)) =
      [{ modelID := 0, material := .selectMat, ids := [9] }] := by
  simp [run, step, overlaysOf, selectSample, loadSample, ondblclick, handleDblClick, cast,
    intersectObjects, sampleLib, hitEvent, missEvent, sampleBounds, onchange, loadSettled,
    handleIfcModel, init, initialOutput, pop, sceneRemove, sceneAdd, removeSubset, createSubset,
    highlight, pick, pickRequest, fetchSettled, pickResume, setId, getId, sampleModel,
    updateSubset, stripTags]
  norm_num

theorem selectSample_output :
    (run sampleLib selectSample (init 800 600 1)).output = "type: IfcWall" := by
  simp [run, step, selectSample, loadSample, ondblclick, handleDblClick, cast,
    intersectObjects, sampleLib, hitEvent, missEvent, sampleBounds, onchange, loadSettled,
    handleIfcModel, init, initialOutput, pop, sceneRemove, sceneAdd, removeSubset, createSubset,
    highlight, pick, pickRequest, fetchSettled, pickResume, setId, getId, sampleModel,
    updateSubset, stripTags]
  norm_num
  decide

theorem selectSample_pendingFetches :
    (run sampleLib selectSample (init 800 600 1)).pendingFetches = [] := by
  simp [run, step, selectSample, loadSample, ondblclick, handleDblClick, cast,
    intersectObjects, sampleLib, hitEvent, missEvent, sampleBounds, onchange, loadSettled,
    handleIfcModel, init, initialOutput, pop, sceneRemove, sceneAdd, removeSubset, createSubset,
    highlight, pick, pickRequest, fetchSettled, pickResume, setId, getId, sampleModel,
    updateSubset, stripTags]
  norm_num

theorem selectSample_cast_miss :
    (cast sampleLib missEvent sampleBounds
      (run sampleLib selectSample (init 800 600 1))).1 = [] := by
  simp [run, step, selectSample, loadSample, ondblclick, handleDblClick, cast,
    intersectObjects, sampleLib, hitEvent, missEvent, sampleBounds, onchange, loadSettled,
    handleIfcModel, init, initialOutput, pop, sceneRemove, sceneAdd, removeSubset, createSubset,
    highlight, pick, pickRequest, fetchSettled, pickResume, setId, getId, sampleModel,
    updateSubset, stripTags]
  norm_num

theorem raceSample_overlaysOf :
    overlaysOf .selectMat (run sampleLib raceSample (init 800 600 1)) = [] := by
  simp [run, step, overlaysOf, raceSample, loadSample, ondblclick, handleDblClick, cast,
    intersectObjects, sampleLib, hitEvent, missEvent, sampleBounds, onchange, loadSettled,
    handleIfcModel, init, initialOutput, pop, sceneRemove, sceneAdd, removeSubset, createSubset,
    highlight, pick, pickRequest, fetchSettled, pickResume, setId, getId, sampleModel,
    updateSubset, stripTags]
  norm_num

theorem raceSample_output :
    (run sampleLib raceSample (init 800 600 1)).output = "type: IfcWall" := by
  simp [run, step, raceSample, loadSample, ondblclick, handleDblClick, cast,
    intersectObjects, sampleLib, hitEvent, missEvent, sampleBounds, onchange, loadSettled,
    handleIfcModel, init, initialOutput, pop, sceneRemove, sceneAdd, removeSubset, createSubset,
    highlight, pick, pickRequest, fetchSettled, pickResume, setId, getId, sampleModel,
    updateSubset, stripTags]
  norm_num
  decide

theorem staleSample_raceFree :
    raceFree sampleLib staleSample (init 800 600 1) = true := by
  simp [run, step, raceFree, staleSample, loadSample, ondblclick, handleDblClick, cast,
    intersectObjects, sampleLib, hitEvent, missEvent, sampleBounds, onchange, loadSettled,
    handleIfcModel, init, initialOutput, pop, sceneRemove, sceneAdd, removeSubset, createSubset,
    highlight, pick, pickRequest, fetchSettled, pickResume, setId, getId, sampleModel,
    updateSubset, stripTags]
  norm_num

theorem staleSample_overlaysOf :
    overlaysOf .selectMat (run sampleLib staleSample (init 800 600 1)) =
      [{ modelID := 0, material := .selectMat, ids := [9] }] := by
  simp [run, step, overlaysOf, staleSample, loadSample, ondblclick, handleDblClick, cast,
    intersectObjects, sampleLib, hitEvent, missEvent, sampleBounds, onchange, loadSettled,
    handleIfcModel, init, initialOutput, pop, sceneRemove, sceneAdd, removeSubset, createSubset,
    highlight, pick, pickRequest, fetchSettled, pickResume, setId, getId, sampleModel,
    updateSubset, stripTags]
  norm_num

theorem staleSample_output :
    (run sampleLib staleSample (init 800 600 1)).output = "" := by
  simp [run, step, staleSample, loadSample, ondblclick, handleDblClick, cast,
    intersectObjects, sampleLib, hitEvent, missEvent, sampleBounds, onchange, loadSettled,
    handleIfcModel, init, initialOutput, pop, sceneRemove, sceneAdd, removeSubset, createSubset,
    highlight, pick, pickRequest, fetchSettled, pickResume, setId, getId, sampleModel,
    updateSubset, stripTags]
  norm_num

theorem staleSample_lastFetched :
    lastFetched sampleLib staleSample (init 800 600 1) none = some "type: IfcWall" := by
  simp [run, step, lastFetched, staleSample, loadSample, ondblclick, handleDblClick, cast,
    intersectObjects, sampleLib, hitEvent, missEvent, sampleBounds, onchange, loadSettled,
    handleIfcModel, init, initialOutput, pop, sceneRemove, sceneAdd, removeSubset, createSubset,
    highlight, pick, pickRequest, fetchSettled, pickResume, setId, getId, sampleModel,
    updateSubset, stripTags]
  norm_num
  decide

theorem loadMarkup_cast_hit :
    (cast sampleLib hitEvent sampleBounds (run sampleLib loadMarkup (init 800 600 1))).1.head? =
      some { distance := 5, object := markupModel, faceIndex := 2 } := by
  simp [run, step, loadMarkup, ondblclick, handleDblClick, cast,
    intersectObjects, sampleLib, hitEvent, missEvent, sampleBounds, onchange, loadSettled,
    handleIfcModel, init, initialOutput, pop, sceneRemove, sceneAdd, removeSubset, createSubset,
    highlight, pick, pickRequest, fetchSettled, pickResume, setId, getId, markupModel,
    updateSubset, stripTags]
  norm_num

theorem sampleLib_getItemProperties_markup :
    sampleLib.getItemProperties 1 10 = some [("name", "<b>walls</b> & slabs")] := by
  simp [sampleLib]

theorem sampleLib_stringify_markup :
    sampleLib.stringify [("name", "<b>walls</b> & slabs")] = "name: <b>walls</b> & slabs" := by
  decide

theorem markupSample_overlaysOf :
    overlaysOf .selectMat (run sampleLib markupSample (init 800 600 1)) =
      [{ modelID := 1, material := .selectMat, ids := [10] }] := by
  simp [run, step, overlaysOf, markupSample, loadMarkup, ondblclick, handleDblClick, cast,
    intersectObjects, sampleLib, hitEvent, missEvent, sampleBounds, onchange, loadSettled,
    handleIfcModel, init, initialOutput, pop, sceneRemove, sceneAdd, removeSubset, createSubset,
    highlight, pick, pickRequest, fetchSettled, pickResume, setId, getId, markupModel,
    updateSubset, stripTags]
  norm_num

theorem markupSample_output :
    (run sampleLib markupSample (init 800 600 1)).output = "name: walls & slabs" := by
  simp [run, step, markupSample, loadMarkup, ondblclick, handleDblClick, cast,
    intersectObjects, sampleLib, hitEvent, missEvent, sampleBounds, onchange, loadSettled,
    handleIfcModel, init, initialOutput, pop, sceneRemove, sceneAdd, removeSubset, createSubset,
    highlight, pick, pickRequest, fetchSettled, pickResume, setId, getId, markupModel,
    updateSubset, stripTags]
  norm_num
  decide

/-! ## The claims -/

/-- C1: in every state reached from start-up by any sequence of events, `ifcModels` has at most
one entry and the models attached to the scene are exactly the entries of `ifcModels`; and
running `handleIfcModel B` on such a state leaves `ifcModels` equal to `[B]`, with `B` the only
model attached to the scene, whether or not a model was resident before. -/
theorem C1_single_resident_model (lib : Lib) (innerWidth innerHeight devicePixelRatio : ℚ)
    (es : List Event) (B : IfcModel) :
    (run lib es (init innerWidth innerHeight devicePixelRatio)).ifcModels.length ≤ 1 ∧
    sceneModels (run lib es (init innerWidth innerHeight devicePixelRatio)) =
      (run lib es (init innerWidth innerHeight devicePixelRatio)).ifcModels ∧
    (handleIfcModel B (run lib es (init innerWidth innerHeight devicePixelRatio))).ifcModels = [B] ∧
    sceneModels (handleIfcModel B (run lib es (init innerWidth innerHeight devicePixelRatio))) =
      [B] ∧
    (handleIfcModel B (init innerWidth innerHeight devicePixelRatio)).ifcModels = [B] := by
  have h := Inv_run lib es (Inv_init innerWidth innerHeight devicePixelRatio)
  exact ⟨h.1, h.2.1, ifcModels_handleIfcModel_of_Inv B h, sceneModels_handleIfcModel_of_Inv B h,
    rfl⟩

/-- C2: in every state reached from start-up by any sequence of events, every hover overlay
belongs to the model id remembered in `preselectModel.id` and every select overlay to the one
remembered in `selectModel.id`; hence after `handleIfcModel B` there is no hover overlay and no
select overlay for any model id, and the output region is empty. -/
theorem C2_load_clears_overlays_and_output (lib : Lib)
    (innerWidth innerHeight devicePixelRatio : ℚ) (es : List Event) (B : IfcModel) :
    (∀ x ∈ overlaysOf .preselectMat (run lib es (init innerWidth innerHeight devicePixelRatio)),
      x.modelID = (run lib es (init innerWidth innerHeight devicePixelRatio)).preselectModel.id) ∧
    (∀ x ∈ overlaysOf .selectMat (run lib es (init innerWidth innerHeight devicePixelRatio)),
      x.modelID = (run lib es (init innerWidth innerHeight devicePixelRatio)).selectModel.id) ∧
    overlaysOf .preselectMat
      (handleIfcModel B (run lib es (init innerWidth innerHeight devicePixelRatio))) = [] ∧
    overlaysOf .selectMat
      (handleIfcModel B (run lib es (init innerWidth innerHeight devicePixelRatio))) = [] ∧
    (handleIfcModel B (run lib es (init innerWidth innerHeight devicePixelRatio))).subsets = [] ∧
    (handleIfcModel B (run lib es (init innerWidth innerHeight devicePixelRatio))).output = "" := by
  have h := Inv_run lib es (Inv_init innerWidth innerHeight devicePixelRatio)
  have hp := overlaysOf_preselect_handleIfcModel_of_Inv B h
  have hs := overlaysOf_select_handleIfcModel_of_Inv B h
  refine ⟨fun x hx => mem_overlaysOf_modelID h.2.2.1 hx,
    fun x hx => mem_overlaysOf_modelID h.2.2.2 hx, hp, hs, ?_, rfl⟩
  rw [List.eq_nil_iff_forall_not_mem]
  intro x hx
  cases hm : x.material with
  | preselectMat =>
    have : x ∈ overlaysOf .preselectMat
        (handleIfcModel B (run lib es (init innerWidth innerHeight devicePixelRatio))) :=
      List.mem_filter.mpr ⟨hx, by simp [hm]⟩
    rw [hp] at this
    cases this
  | selectMat =>
    have : x ∈ overlaysOf .selectMat
        (handleIfcModel B (run lib es (init innerWidth innerHeight devicePixelRatio))) :=
      List.mem_filter.mpr ⟨hx, by simp [hm]⟩
    rw [hs] at this
    cases this

/-- C3: in every state reached from start-up by any sequence of events, a pointer move leaves as
hover overlays, and a double-click leaves as select overlays, exactly the one overlay of model id
M with the single element id E when the first intersection of the cast is a face of model M that
resolves to E, and no overlay when the cast returns no intersection; hence every reachable state
has at most one overlay per mode and each overlay covers exactly one element. -/
theorem C3_one_overlay_per_mode (lib : Lib) (innerWidth innerHeight devicePixelRatio : ℚ)
    (es : List Event) (event : MouseEvent) (bounds : DOMRect) :
    overlaysOf .preselectMat
        (onmousemove lib event bounds (run lib es (init innerWidth innerHeight devicePixelRatio))) =
      (match (cast lib event bounds
          (run lib es (init innerWidth innerHeight devicePixelRatio))).1.head? with
        | some found =>
          [{ modelID := found.object.modelID
             material := .preselectMat
             ids := [lib.getExpressId found.object.geometry found.faceIndex] }]
        | none => []) ∧
    overlaysOf .selectMat
        (ondblclick lib event bounds (run lib es (init innerWidth innerHeight devicePixelRatio))) =
      (match (cast lib event bounds
          (run lib es (init innerWidth innerHeight devicePixelRatio))).1.head? with
        | some found =>
          [{ modelID := found.object.modelID
             material := .selectMat
             ids := [lib.getExpressId found.object.geometry found.faceIndex] }]
        | none => []) ∧
    (∀ material : Material,
      (overlaysOf material (run lib es (init innerWidth innerHeight devicePixelRatio))).length ≤ 1 ∧
      ∀ x ∈ overlaysOf material (run lib es (init innerWidth innerHeight devicePixelRatio)),
        x.ids.length = 1) := by
  have h := Inv_run lib es (Inv_init innerWidth innerHeight devicePixelRatio)
  refine ⟨?_, ?_, ?_⟩
  · have := overlaysOf_handleMouseMove lib event bounds .preselectMat .preselectModel _ h.2.2.1
    unfold firstHit overlayFor at this
    exact this
  · have := overlaysOf_handleDblClick lib event bounds .selectMat .selectModel _ h.2.2.2
    unfold firstHit overlayFor at this
    exact this
  · intro material
    cases material with
    | preselectMat => exact overlaysOf_shape h.2.2.1
    | selectMat => exact overlaysOf_shape h.2.2.2

/-- C4 fails as stated: with `markupModel` loaded, a double-click selects element 10 of model
1, its fetch is fulfilled with a document whose formatted text is `name: <b>walls</b> & slabs`
and settles before anything else happens; the script assigns that text to `innerHTML`, the tag is
parsed as markup, and the output region shows `name: walls & slabs`, not the formatted text. -/
theorem C4_counterexample :
    overlaysOf .selectMat (run sampleLib markupSample (init 800 600 1)) =
      [{ modelID := 1, material := .selectMat, ids := [10] }] ∧
    sampleLib.getItemProperties 1 10 = some [("name", "<b>walls</b> & slabs")] ∧
    sampleLib.stringify [("name", "<b>walls</b> & slabs")] = "name: <b>walls</b> & slabs" ∧
    (run sampleLib markupSample (init 800 600 1)).output = "name: walls & slabs" ∧
    (run sampleLib markupSample (init 800 600 1)).output ≠
      sampleLib.stringify [("name", "<b>walls</b> & slabs")] := by
  refine ⟨markupSample_overlaysOf, sampleLib_getItemProperties_markup,
    sampleLib_stringify_markup, markupSample_output, ?_⟩
  rw [markupSample_output, sampleLib_stringify_markup]
  decide

/-- C4 amended: in every state reached from start-up by any sequence of events, a double-click
whose cast returns the first intersection `found` makes `pick` request the properties of the pair
(model id of the struck object, element id of the struck face), which is the pair `highlight`
gives the select overlay and the remembered select id, whether or not the fetch succeeds; when
that fetch is the next thing to settle and is fulfilled with `props`, the text `stringify props`
is assigned to `innerHTML` and the output region then shows what the browser's HTML parse makes
of it, which is `stringify props` itself when the parse leaves that text unchanged; when the
fetch is rejected the output region keeps what it showed before the double-click. -/
theorem C4_pick_requests_highlighted_element (lib : Lib)
    (innerWidth innerHeight devicePixelRatio : ℚ) (es : List Event) (event : MouseEvent)
    (bounds : DOMRect) (found : Intersection)
    (hfound : (cast lib event bounds
      (run lib es (init innerWidth innerHeight devicePixelRatio))).1.head? = some found) :
    pickRequest lib found =
      (found.object.modelID, lib.getExpressId found.object.geometry found.faceIndex) ∧
    (ondblclick lib event bounds
        (run lib es (init innerWidth innerHeight devicePixelRatio))).pendingFetches =
      (run lib es (init innerWidth innerHeight devicePixelRatio)).pendingFetches ++
        [pickRequest lib found] ∧
    overlaysOf .selectMat
        (ondblclick lib event bounds (run lib es (init innerWidth innerHeight devicePixelRatio))) =
      [{ modelID := (pickRequest lib found).1
         material := .selectMat
         ids := [(pickRequest lib found).2] }] ∧
    (ondblclick lib event bounds
        (run lib es (init innerWidth innerHeight devicePixelRatio))).selectModel.id =
      (pickRequest lib found).1 ∧
    (∀ props : Props,
      lib.getItemProperties found.object.modelID
          (lib.getExpressId found.object.geometry found.faceIndex) = some props →
        (fetchSettled lib
            (run lib es (init innerWidth innerHeight devicePixelRatio)).pendingFetches.length
            (ondblclick lib event bounds
              (run lib es (init innerWidth innerHeight devicePixelRatio)))).output =
          lib.renderHTML (lib.stringify props) ∧
        (lib.renderHTML (lib.stringify props) = lib.stringify props →
          (fetchSettled lib
              (run lib es (init innerWidth innerHeight devicePixelRatio)).pendingFetches.length
              (ondblclick lib event bounds
                (run lib es (init innerWidth innerHeight devicePixelRatio)))).output =
            lib.stringify props)) ∧
    (lib.getItemProperties found.object.modelID
        (lib.getExpressId found.object.geometry found.faceIndex) = none →
      (fetchSettled lib
          (run lib es (init innerWidth innerHeight devicePixelRatio)).pendingFetches.length
          (ondblclick lib event bounds
            (run lib es (init innerWidth innerHeight devicePixelRatio)))).output =
        (run lib es (init innerWidth innerHeight devicePixelRatio)).output) := by
  have hinv := Inv_run lib es (Inv_init innerWidth innerHeight devicePixelRatio)
  have hhit : firstHit lib event bounds
      (run lib es (init innerWidth innerHeight devicePixelRatio)) = some found := hfound
  have hpend := handleDblClick_hit_pendingFetches hhit .selectMat .selectModel
  have hov := overlaysOf_handleDblClick lib event bounds .selectMat .selectModel _ hinv.2.2.2
  rw [hhit] at hov
  have hget : (ondblclick lib event bounds
      (run lib es (init innerWidth innerHeight devicePixelRatio))).pendingFetches.get?
        (run lib es (init innerWidth innerHeight devicePixelRatio)).pendingFetches.length =
      some (pickRequest lib found) := by
    show (handleDblClick lib event bounds .selectMat .selectModel _).pendingFetches.get? _ = _
    rw [hpend]
    simp
  refine ⟨rfl, hpend, hov, ?_, fun props hprops => ?_, fun hnone => ?_⟩
  · show getId .selectModel (handleDblClick lib event bounds .selectMat .selectModel _) = _
    rw [handleDblClick_hit hhit, getId_highlight_self]
    rfl
  · have hout := @fetchSettled_fulfilled_output lib _ _ (pickRequest lib found) props hget hprops
    exact ⟨hout, fun hsame => hout.trans hsame⟩
  · rw [@fetchSettled_rejected_output lib _ _ (pickRequest lib found) hget hnone]
    exact handleDblClick_hit_output hhit .selectMat .selectModel

/-- A witness of the amended C4: after `sampleModel` is loaded, a double-click on the right half
of the canvas strikes face 2 of the model, and once its fetch is fulfilled the output region
shows the document of element 9, whose formatted text holds no markup. -/
theorem C4_pick_requests_highlighted_element_witness :
    (cast sampleLib hitEvent sampleBounds (run sampleLib loadSample (init 800 600 1))).1.head? =
      some { distance := 5, object := sampleModel, faceIndex := 2 } ∧
    sampleLib.getItemProperties 0 9 = some [("type", "IfcWall")] ∧
    (fetchSettled sampleLib (run sampleLib loadSample (init 800 600 1)).pendingFetches.length
        (ondblclick sampleLib hitEvent sampleBounds
          (run sampleLib loadSample (init 800 600 1)))).output =
      sampleLib.renderHTML (sampleLib.stringify [("type", "IfcWall")]) :=
  ⟨loadSample_cast_hit, sampleLib_getItemProperties,
    ((C4_pick_requests_highlighted_element sampleLib 800 600 1 loadSample hitEvent sampleBounds
      { distance := 5, object := sampleModel, faceIndex := 2 } loadSample_cast_hit).2.2.2.2.1
      [("type", "IfcWall")] sampleLib_getItemProperties).1⟩

/-- C5: in every state reached from start-up by any sequence of events, a double-click whose
cast returns no intersection leaves the output region empty and leaves no select overlay. -/
theorem C5_dblclick_miss_clears_selection (lib : Lib)
    (innerWidth innerHeight devicePixelRatio : ℚ) (es : List Event) (event : MouseEvent)
    (bounds : DOMRect)
    (hmiss : (cast lib event bounds
      (run lib es (init innerWidth innerHeight devicePixelRatio))).1 = []) :
    (ondblclick lib event bounds
      (run lib es (init innerWidth innerHeight devicePixelRatio))).output = "" ∧
    overlaysOf .selectMat
      (ondblclick lib event bounds
        (run lib es (init innerWidth innerHeight devicePixelRatio))) = [] := by
  have hinv := Inv_run lib es (Inv_init innerWidth innerHeight devicePixelRatio)
  have hnone : firstHit lib event bounds
      (run lib es (init innerWidth innerHeight devicePixelRatio)) = none := by
    unfold firstHit
    rw [hmiss]
    rfl
  have hov := overlaysOf_handleDblClick lib event bounds .selectMat .selectModel _ hinv.2.2.2
  rw [hnone] at hov
  exact ⟨handleDblClick_miss_output hnone _ _, hov⟩

/-- A witness of C5: with element 9 of `sampleModel` selected and its document shown, a
double-click on the left half of the canvas strikes nothing and clears both. -/
theorem C5_dblclick_miss_clears_selection_witness :
    (cast sampleLib missEvent sampleBounds (run sampleLib selectSample (init 800 600 1))).1 = [] ∧
    overlaysOf .selectMat (run sampleLib selectSample (init 800 600 1)) =
      [{ modelID := 0, material := .selectMat, ids := [9] }] ∧
    (run sampleLib selectSample (init 800 600 1)).output = "type: IfcWall" ∧
    (ondblclick sampleLib missEvent sampleBounds
      (run sampleLib selectSample (init 800 600 1))).output = "" ∧
    overlaysOf .selectMat
      (ondblclick sampleLib missEvent sampleBounds
        (run sampleLib selectSample (init 800 600 1))) = [] :=
  ⟨selectSample_cast_miss, selectSample_overlaysOf, selectSample_output,
    C5_dblclick_miss_clears_selection sampleLib 800 600 1 selectSample missEvent sampleBounds
      selectSample_cast_miss⟩

/-- C6: for a canvas box with `left < right` and `top < bottom`, `cast` sets
`mouse.x = 2 * (clientX - left) / (right - left) - 1` and
`mouse.y = 1 - 2 * (clientY - top) / (bottom - top)` in exact rational arithmetic; both
coordinates lie in [-1, 1] exactly when the pointer lies inside the box; the top-left corner is
mapped to (-1, 1) and the bottom-right corner to (1, -1); and both pointer listeners leave
`mouse` at the value `cast` computed. -/
theorem C6_cast_normalized_coordinates (lib : Lib) (event : MouseEvent) (bounds : DOMRect)
    (s : State) (hx : bounds.left < bounds.right) (hy : bounds.top < bounds.bottom) :
    (cast lib event bounds s).2.mouse.x =
      2 * (event.clientX - bounds.left) / (bounds.right - bounds.left) - 1 ∧
    (cast lib event bounds s).2.mouse.y =
      1 - 2 * (event.clientY - bounds.top) / (bounds.bottom - bounds.top) ∧
    (((-1 ≤ (cast lib event bounds s).2.mouse.x ∧ (cast lib event bounds s).2.mouse.x ≤ 1) ∧
        (-1 ≤ (cast lib event bounds s).2.mouse.y ∧ (cast lib event bounds s).2.mouse.y ≤ 1)) ↔
      ((bounds.left ≤ event.clientX ∧ event.clientX ≤ bounds.right) ∧
        (bounds.top ≤ event.clientY ∧ event.clientY ≤ bounds.bottom))) ∧
    (cast lib { clientX := bounds.left, clientY := bounds.top } bounds s).2.mouse =
      { x := -1, y := 1 } ∧
    (cast lib { clientX := bounds.right, clientY := bounds.bottom } bounds s).2.mouse =
      { x := 1, y := -1 } ∧
    (onmousemove lib event bounds s).mouse = (cast lib event bounds s).2.mouse ∧
    (ondblclick lib event bounds s).mouse = (cast lib event bounds s).2.mouse := by
  have hxpos : bounds.right - bounds.left ≠ 0 := (sub_pos.mpr hx).ne'
  have hypos : bounds.bottom - bounds.top ≠ 0 := (sub_pos.mpr hy).ne'
  have ex : (cast lib event bounds s).2.mouse.x =
      (event.clientX - bounds.left) / (bounds.right - bounds.left) * 2 - 1 := rfl
  have ey : (cast lib event bounds s).2.mouse.y =
      -((event.clientY - bounds.top) / (bounds.bottom - bounds.top)) * 2 + 1 := rfl
  refine ⟨?_, ?_, ?_, ?_, ?_, handleMouseMove_mouse .., handleDblClick_mouse ..⟩
  · rw [ex]; ring
  · rw [ey]; ring
  · rw [ex, ey, ← unit_range_iff event.clientX _ _ hx, ← unit_range_iff event.clientY _ _ hy]
    constructor
    · rintro ⟨⟨h1, h2⟩, h3, h4⟩
      exact ⟨⟨by linarith, by linarith⟩, by linarith, by linarith⟩
    · rintro ⟨⟨h1, h2⟩, h3, h4⟩
      exact ⟨⟨by linarith, by linarith⟩, by linarith, by linarith⟩
  · show ({ x := (bounds.left - bounds.left) / (bounds.right - bounds.left) * 2 - 1,
            y := -((bounds.top - bounds.top) / (bounds.bottom - bounds.top)) * 2 + 1 } : Vector2) =
        { x := -1, y := 1 }
    rw [sub_self, zero_div, sub_self, zero_div]
    norm_num
  · show ({ x := (bounds.right - bounds.left) / (bounds.right - bounds.left) * 2 - 1,
            y := -((bounds.bottom - bounds.top) / (bounds.bottom - bounds.top)) * 2 + 1 } :
          Vector2) = { x := 1, y := -1 }
    rw [div_self hxpos, div_self hypos]
    norm_num

/-- A witness of C6: on the 400 by 300 canvas the pointer at (300, 150) is mapped to (1/2, 0). -/
theorem C6_cast_normalized_coordinates_witness :
    sampleBounds.left < sampleBounds.right ∧ sampleBounds.top < sampleBounds.bottom ∧
    (cast sampleLib hitEvent sampleBounds (init 800 600 1)).2.mouse.x = 1 / 2 ∧
    (cast sampleLib hitEvent sampleBounds (init 800 600 1)).2.mouse.y = 0 := by
  have hx : sampleBounds.left < sampleBounds.right := by norm_num [sampleBounds]
  have hy : sampleBounds.top < sampleBounds.bottom := by norm_num [sampleBounds]
  have h := C6_cast_normalized_coordinates sampleLib hitEvent sampleBounds (init 800 600 1) hx hy
  refine ⟨hx, hy, ?_, ?_⟩
  · rw [h.1]; norm_num [sampleBounds, hitEvent]
  · rw [h.2.1]; norm_num [sampleBounds, hitEvent]

/-- C7 fails as stated. First, a double-click on an element, a double-click on empty space and
then the settling of the first double-click's fetch leave the document in the output region
although no select overlay exists. Second, also without any race: after a selection whose
document was shown and cleared again, a new selection exists while its fetch is pending, and the
output region is empty and does not show the last successfully fetched document. -/
theorem C7_counterexample :
    (overlaysOf .selectMat (run sampleLib raceSample (init 800 600 1)) = [] ∧
      (run sampleLib raceSample (init 800 600 1)).output = "type: IfcWall" ∧
      ¬ (overlaysOf .selectMat (run sampleLib raceSample (init 800 600 1)) = [] →
        (run sampleLib raceSample (init 800 600 1)).output = "")) ∧
    (raceFree sampleLib staleSample (init 800 600 1) = true ∧
      overlaysOf .selectMat (run sampleLib staleSample (init 800 600 1)) =
        [{ modelID := 0, material := .selectMat, ids := [9] }] ∧
      (run sampleLib staleSample (init 800 600 1)).output = "" ∧
      lastFetched sampleLib staleSample (init 800 600 1) none = some "type: IfcWall") := by
  refine ⟨⟨raceSample_overlaysOf, raceSample_output, fun h => ?_⟩, staleSample_raceFree,
    staleSample_overlaysOf, staleSample_output, staleSample_lastFetched⟩
  have h1 := h raceSample_overlaysOf
  rw [raceSample_output] at h1
  exact absurd h1 (by decide)

/-- C7 amended: in every state reached from start-up by events among which no double-click and
no successful model load is handled while a property fetch is pending, the output region is
empty whenever no select overlay exists; and whenever the select overlay is the overlay of
element E of model M, no fetch is pending and the fetch for (M, E) is fulfilled with `props`,
the output region shows what the browser's HTML parse makes of `stringify props`, the text the
script assigned to `innerHTML`. -/
theorem C7_output_follows_selection_without_races (lib : Lib)
    (innerWidth innerHeight devicePixelRatio : ℚ) (es : List Event) (M E : Int) (props : Props)
    (hrace : raceFree lib es (init innerWidth innerHeight devicePixelRatio) = true) :
    (overlaysOf .selectMat (run lib es (init innerWidth innerHeight devicePixelRatio)) = [] →
      (run lib es (init innerWidth innerHeight devicePixelRatio)).output = "") ∧
    (overlaysOf .selectMat (run lib es (init innerWidth innerHeight devicePixelRatio)) =
        [{ modelID := M, material := .selectMat, ids := [E] }] →
      (run lib es (init innerWidth innerHeight devicePixelRatio)).pendingFetches = [] →
      lib.getItemProperties M E = some props →
      (run lib es (init innerWidth innerHeight devicePixelRatio)).output =
        lib.renderHTML (lib.stringify props)) := by
  have h := OutputInv_run es (Inv_init innerWidth innerHeight devicePixelRatio)
    (OutputInv_init lib innerWidth innerHeight devicePixelRatio) hrace
  refine ⟨fun h0 => (h.1 h0).1, fun hME hpend hprops => ?_⟩
  rcases h.2 M E hME with hp | ⟨_, hout⟩
  · rw [hpend] at hp
    cases hp
  · exact hout props hprops

/-- A witness of the amended C7: loading `sampleModel`, double-clicking its element 9 and letting
the fetch settle is free of races and leaves the document of element 9 in the output region. -/
theorem C7_output_follows_selection_without_races_witness :
    raceFree sampleLib selectSample (init 800 600 1) = true ∧
    overlaysOf .selectMat (run sampleLib selectSample (init 800 600 1)) =
      [{ modelID := 0, material := .selectMat, ids := [9] }] ∧
    (run sampleLib selectSample (init 800 600 1)).pendingFetches = [] ∧
    (run sampleLib selectSample (init 800 600 1)).output =
      sampleLib.renderHTML (sampleLib.stringify [("type", "IfcWall")]) :=
  ⟨selectSample_raceFree, selectSample_overlaysOf, selectSample_pendingFetches,
    (C7_output_follows_selection_without_races sampleLib 800 600 1 selectSample 0 9
      [("type", "IfcWall")] selectSample_raceFree).2 selectSample_overlaysOf
      selectSample_pendingFetches sampleLib_getItemProperties⟩

/-- C8: the two highlight modes are independent: on every state and for every pointer event,
`onmousemove` (hover material, hover record) keeps `selectModel.id`, the select overlays and the
output region, and `ondblclick` (select material, select record) keeps `preselectModel.id` and
the hover overlays. -/
theorem C8_modes_independent (lib : Lib) (event : MouseEvent) (bounds : DOMRect) (s : State) :
    (onmousemove lib event bounds s).selectModel.id = s.selectModel.id ∧
    overlaysOf .selectMat (onmousemove lib event bounds s) = overlaysOf .selectMat s ∧
    (onmousemove lib event bounds s).output = s.output ∧
    (ondblclick lib event bounds s).preselectModel.id = s.preselectModel.id ∧
    overlaysOf .preselectMat (ondblclick lib event bounds s) = overlaysOf .preselectMat s :=
  ⟨getId_handleMouseMove_of_ne lib event bounds .preselectMat
      (show ModelRef.preselectModel ≠ ModelRef.selectModel by decide) s,
    overlaysOf_handleMouseMove_of_ne lib event bounds (by decide) _ s,
    handleMouseMove_output lib event bounds _ _ s,
    getId_handleDblClick_of_ne lib event bounds .selectMat
      (show ModelRef.selectModel ≠ ModelRef.preselectModel by decide) s,
    overlaysOf_handleDblClick_of_ne lib event bounds (by decide) _ s⟩

/-- C9: after the resize listener has run, on every state and for every window size, `size`
holds the window's inner width and height, `camera.aspect` equals `size.width / size.height` and
is the aspect of the projection matrix, and the renderer's drawing surface is
`size.width` by `size.height`; one run of the listener makes all these updates. -/
theorem C9_resize_updates_viewport (lib : Lib) (innerWidth innerHeight : ℚ) (s : State) :
    step lib (.resize innerWidth innerHeight) s = onresize innerWidth innerHeight s ∧
    (onresize innerWidth innerHeight s).size.width = innerWidth ∧
    (onresize innerWidth innerHeight s).size.height = innerHeight ∧
    (onresize innerWidth innerHeight s).camera.aspect =
      (onresize innerWidth innerHeight s).size.width /
        (onresize innerWidth innerHeight s).size.height ∧
    (onresize innerWidth innerHeight s).camera.projectionAspect =
      (onresize innerWidth innerHeight s).camera.aspect ∧
    (onresize innerWidth innerHeight s).renderer.width =
      (onresize innerWidth innerHeight s).size.width ∧
    (onresize innerWidth innerHeight s).renderer.height =
      (onresize innerWidth innerHeight s).size.height :=
  ⟨rfl, rfl, rfl, rfl, rfl, rfl, rfl⟩

/-- C10: a model load that fails changes nothing the user can observe: after the file-change
listener has started the load, and again after the load has ended without the success callback,
`ifcModels`, the scene, both remembered highlight ids, all overlays and the output region are
what they were before the file-change event. -/
theorem C10_failed_load_keeps_state (files : List Nat) (i : Nat) (s : State) :
    ((onchange files s).ifcModels = s.ifcModels ∧ (onchange files s).scene = s.scene ∧
      (onchange files s).preselectModel = s.preselectModel ∧
      (onchange files s).selectModel = s.selectModel ∧
      (onchange files s).subsets = s.subsets ∧ (onchange files s).output = s.output) ∧
    ((loadSettled i none (onchange files s)).ifcModels = s.ifcModels ∧
      (loadSettled i none (onchange files s)).scene = s.scene ∧
      (loadSettled i none (onchange files s)).preselectModel = s.preselectModel ∧
      (loadSettled i none (onchange files s)).selectModel = s.selectModel ∧
      (loadSettled i none (onchange files s)).subsets = s.subsets ∧
      (loadSettled i none (onchange files s)).output = s.output) := by
  have h1 : (onchange files s).ifcModels = s.ifcModels ∧ (onchange files s).scene = s.scene ∧
      (onchange files s).preselectModel = s.preselectModel ∧
      (onchange files s).selectModel = s.selectModel ∧
      (onchange files s).subsets = s.subsets ∧ (onchange files s).output = s.output := by
    unfold onchange
    split <;> exact ⟨rfl, rfl, rfl, rfl, rfl, rfl⟩
  refine ⟨h1, ?_⟩
  obtain ⟨a, b, c, d, e, f⟩ := h1
  unfold loadSettled
  split
  · exact ⟨a, b, c, d, e, f⟩
  · exact ⟨a, b, c, d, e, f⟩

end IfcViewer
